import Mathlib

/-!
# Roast backend: request pipelines of `api/roast-project.js`, `api/roast-resume.js`, `server.js`

A shallow embedding of the four request handlers of the repository and of the
pieces of the JavaScript platform they rely on (`JSON.parse`, property
assignment, `String.prototype.split`, `Array.prototype.pop`, `toLowerCase`,
`try/catch/finally`, `fs.unlinkSync`), followed by theorems about the handlers.

Conventions of the embedding

* A handler is a pure function of the request and of the outcomes of its
  external collaborators: the text extractor, the `axios.post` call to the
  completion provider, and, for the Express resume route, the set of files in
  the upload directory. Its result holds the HTTP status, the value handed to
  `res.json`, and the list of external calls it made.
* A request is taken after the middleware (CORS, multer, body parser) has run.
  The body of a project request is the parsed JSON object or is absent; its
  fields and `roastLevel` are strings or absent; the provider envelope has
  `choices`, `message` and `content` present or absent, `content` being a
  string.
* A JavaScript exception is the `Except.error` of `Except JsError`.
* The value handed to `res.json` is kept as a `JsVal`; its serialisation to
  text is not part of the model.
* Each of the four handlers is embedded from its own source text, so that the
  copies can be compared.
-/

namespace Roast

/-! ## JavaScript values -/

/-- JavaScript values as far as the handlers meet them: `undefined`, and the
values `JSON.parse` builds.  A number is kept as the JSON literal that denotes
it (the handlers never compute with numbers, they only pass them through). An
object is the list of its own properties in insertion order. -/
inductive JsVal where
  | undefined : JsVal
  | null : JsVal
  | bool (b : Bool) : JsVal
  | num (literal : String) : JsVal
  | str (s : String) : JsVal
  | arr (items : List JsVal) : JsVal
  | obj (props : List (String × JsVal)) : JsVal

/-- The kinds of exception the handlers can meet. -/
inductive JsError where
  | SyntaxError : JsError
  | TypeError : JsError
  | Rejected : JsError
  | ENOENT : JsError
  deriving DecidableEq, Repr

namespace JsVal

/-- Own-property lookup `o[k]` on a property list: the first entry with that
key (keys of a parsed object are unique). -/
def lookup (k : String) : List (String × JsVal) → JsVal
  | [] => undefined
  | (k', v) :: rest => if k' = k then v else lookup k rest

/-- Property write `o[k] = v` on a property list: an existing key keeps its
place and takes the new value, a new key is appended. -/
def assign (k : String) (v : JsVal) : List (String × JsVal) → List (String × JsVal)
  | [] => [(k, v)]
  | (k', v') :: rest => if k' = k then (k, v) :: rest else (k', v') :: assign k v rest

/-- Read `v.k` for a key that no built-in prototype defines (the handlers read
only such keys from parsed data): an own property of an object, otherwise
`undefined`. -/
def get (v : JsVal) (k : String) : JsVal :=
  match v with
  | obj props => lookup k props
  | _ => undefined

end JsVal

/-! ## `JSON.parse` -/

namespace JSON

/-- JSON whitespace: space, tab, line feed, carriage return. -/
def isWs (c : Char) : Bool :=
  c = ' ' || c = '\t' || c = '\n' || c = '\r'

/-- Drop leading JSON whitespace. -/
def skipWs : List Char → List Char
  | [] => []
  | c :: cs => if isWs c then skipWs cs else c :: cs

/-- Split off the longest prefix of decimal digits. -/
def takeDigits : List Char → List Char × List Char
  | [] => ([], [])
  | c :: cs =>
    if c.isDigit then
      let r := takeDigits cs
      (c :: r.1, r.2)
    else ([], c :: cs)

/-- Integer part of a number: `0`, or a non-zero digit followed by digits. -/
def intPart (cs : List Char) : Option (List Char × List Char) :=
  match cs with
  | '0' :: rest => some (['0'], rest)
  | c :: rest =>
    if c.isDigit then
      let r := takeDigits rest
      some (c :: r.1, r.2)
    else none
  | [] => none

/-- Optional fraction: a dot followed by at least one digit. -/
def fracPart (cs : List Char) : Option (List Char × List Char) :=
  match cs with
  | '.' :: rest =>
    match takeDigits rest with
    | ([], _) => none
    | (ds, rest2) => some ('.' :: ds, rest2)
  | _ => some ([], cs)

/-- Digits of an exponent, after the optional sign. -/
def expDigits (mark : List Char) (cs : List Char) : Option (List Char × List Char) :=
  match takeDigits cs with
  | ([], _) => none
  | (ds, rest) => some (mark ++ ds, rest)

/-- Optional exponent: `e` or `E`, an optional sign, at least one digit. -/
def expPart (cs : List Char) : Option (List Char × List Char) :=
  match cs with
  | 'e' :: '+' :: rest => expDigits ['e', '+'] rest
  | 'e' :: '-' :: rest => expDigits ['e', '-'] rest
  | 'e' :: rest => expDigits ['e'] rest
  | 'E' :: '+' :: rest => expDigits ['E', '+'] rest
  | 'E' :: '-' :: rest => expDigits ['E', '-'] rest
  | 'E' :: rest => expDigits ['E'] rest
  | _ => some ([], cs)

/-- Unsigned part of a JSON number. -/
def unsignedNumber (cs : List Char) : Option (List Char × List Char) :=
  match intPart cs with
  | none => none
  | some (i, r1) =>
    match fracPart r1 with
    | none => none
    | some (f, r2) =>
      match expPart r2 with
      | none => none
      | some (e, r3) => some (i ++ f ++ e, r3)

/-- A JSON number: optional minus sign, integer part, optional fraction,
optional exponent.  The value is the literal read. -/
def parseNumber (cs : List Char) : Option (JsVal × List Char) :=
  match cs with
  | '-' :: rest =>
    match unsignedNumber rest with
    | none => none
    | some (l, r) => some (JsVal.num (String.mk ('-' :: l)), r)
  | _ =>
    match unsignedNumber cs with
    | none => none
    | some (l, r) => some (JsVal.num (String.mk l), r)

/-- Value of a hexadecimal digit. -/
def hexDigit (c : Char) : Option Nat :=
  if c.isDigit then some (c.toNat - 48)
  else if 97 ≤ c.toNat ∧ c.toNat ≤ 102 then some (c.toNat - 87)
  else if 65 ≤ c.toNat ∧ c.toNat ≤ 70 then some (c.toNat - 55)
  else none

/-- The code unit written by the four hexadecimal digits of a `\u` escape. -/
def hex4 (a b c d : Char) : Option Nat :=
  match hexDigit a, hexDigit b, hexDigit c, hexDigit d with
  | some x, some y, some z, some w => some (((x * 16 + y) * 16 + z) * 16 + w)
  | _, _, _, _ => none

/-- The character of a code unit.  A surrogate code unit that is not part of a
pair has no counterpart in a Lean string and is kept as U+FFFD. -/
def unitChar (u : Nat) : Char :=
  if 0xD800 ≤ u ∧ u ≤ 0xDFFF then Char.ofNat 0xFFFD else Char.ofNat u

/-- The characters of a string literal after its opening quote, up to the
closing quote: no raw control character, the escapes
`\" \\ \/ \b \f \n \r \t \uXXXX`, a high surrogate escape followed by a low
surrogate escape read as one code point. -/
def parseChars : Nat → List Char → List Char → Option (String × List Char)
  | 0, _, _ => none
  | fuel + 1, cs, acc =>
    match cs with
    | [] => none
    | '"' :: rest => some (String.mk acc, rest)
    | '\\' :: 'u' :: a :: b :: c :: d :: rest =>
      match hex4 a b c d with
      | none => none
      | some hi =>
        match rest with
        | '\\' :: 'u' :: e :: f :: g :: h :: rest2 =>
          match hex4 e f g h with
          | none => none
          | some lo =>
            if 0xD800 ≤ hi ∧ hi ≤ 0xDBFF ∧ 0xDC00 ≤ lo ∧ lo ≤ 0xDFFF then
              parseChars fuel rest2
                (acc ++ [Char.ofNat (0x10000 + (hi - 0xD800) * 0x400 + (lo - 0xDC00))])
            else parseChars fuel rest (acc ++ [unitChar hi])
        | _ => parseChars fuel rest (acc ++ [unitChar hi])
    | '\\' :: e :: rest =>
      if e = '"' then parseChars fuel rest (acc ++ ['"'])
      else if e = '\\' then parseChars fuel rest (acc ++ ['\\'])
      else if e = '/' then parseChars fuel rest (acc ++ ['/'])
      else if e = 'b' then parseChars fuel rest (acc ++ [Char.ofNat 8])
      else if e = 'f' then parseChars fuel rest (acc ++ [Char.ofNat 12])
      else if e = 'n' then parseChars fuel rest (acc ++ ['\n'])
      else if e = 'r' then parseChars fuel rest (acc ++ ['\r'])
      else if e = 't' then parseChars fuel rest (acc ++ ['\t'])
      else none
    | c :: rest =>
      if c.toNat < 32 ∨ c = '\\' then none else parseChars fuel rest (acc ++ [c])

/-- The literals `true`, `false` and `null`, or else a number. -/
def parseLiteral (cs : List Char) : Option (JsVal × List Char) :=
  if ['t', 'r', 'u', 'e'].isPrefixOf cs then some (JsVal.bool true, cs.drop 4)
  else if ['f', 'a', 'l', 's', 'e'].isPrefixOf cs then some (JsVal.bool false, cs.drop 5)
  else if ['n', 'u', 'l', 'l'].isPrefixOf cs then some (JsVal.null, cs.drop 4)
  else parseNumber cs

mutual

/-- One JSON value, leading whitespace skipped; `fuel` bounds the nesting and
the number of items read. -/
def parseValue : Nat → List Char → Option (JsVal × List Char)
  | 0, _ => none
  | fuel + 1, cs =>
    match skipWs cs with
    | '{' :: rest =>
      match skipWs rest with
      | '}' :: rest2 => some (JsVal.obj [], rest2)
      | rest2 => parseMembers fuel rest2 []
    | '[' :: rest =>
      match skipWs rest with
      | ']' :: rest2 => some (JsVal.arr [], rest2)
      | rest2 => parseElements fuel rest2 []
    | '"' :: rest =>
      match parseChars (rest.length + 1) rest [] with
      | none => none
      | some (s, rest2) => some (JsVal.str s, rest2)
    | other => parseLiteral other

/-- The items of an array after `[`, at least one, up to the closing `]`. -/
def parseElements : Nat → List Char → List JsVal → Option (JsVal × List Char)
  | 0, _, _ => none
  | fuel + 1, cs, acc =>
    match parseValue fuel cs with
    | none => none
    | some (v, rest) =>
      match skipWs rest with
      | ',' :: rest2 => parseElements fuel rest2 (acc ++ [v])
      | ']' :: rest2 => some (JsVal.arr (acc ++ [v]), rest2)
      | _ => none

/-- The members of an object after `{`, at least one, up to the closing `}`.
A repeated key takes the later value, as `JSON.parse` does. -/
def parseMembers : Nat → List Char → List (String × JsVal) → Option (JsVal × List Char)
  | 0, _, _ => none
  | fuel + 1, cs, acc =>
    match skipWs cs with
    | '"' :: rest =>
      match parseChars (rest.length + 1) rest [] with
      | none => none
      | some (k, rest2) =>
        match skipWs rest2 with
        | ':' :: rest3 =>
          match parseValue fuel rest3 with
          | none => none
          | some (v, rest4) =>
            match skipWs rest4 with
            | ',' :: rest5 => parseMembers fuel rest5 (JsVal.assign k v acc)
            | '}' :: rest5 => some (JsVal.obj (JsVal.assign k v acc), rest5)
            | _ => none
        | _ => none
    | _ => none

end

/-- The built-in `JSON.parse` on a string: one JSON value between optional
whitespace, nothing else; any other text throws `SyntaxError`.  Every step of
the parser consumes a character, so the length of the text bounds the fuel. -/
def parse (text : String) : Except JsError JsVal :=
  match parseValue (text.length + 1) text.data with
  | none => Except.error JsError.SyntaxError
  | some (v, rest) =>
    match skipWs rest with
    | [] => Except.ok v
    | _ => Except.error JsError.SyntaxError

end JSON

/-! ## Requests, collaborators and results -/

/-- The parsed JSON body of a submit-project request: each of the three fields
is a string, or absent (`undefined` after destructuring). -/
structure ProjectBody where
  projectDescription : Option String
  projectLink : Option String
  roastLevel : Option String

/-- A submit-project request as `api/roast-project.js` sees it: `req.method` and
`req.body`, which is the parsed JSON object, or absent (`undefined` or `null`)
when the request carried no body the platform could parse. -/
structure ProjectRequest where
  method : String
  body : Option ProjectBody

/-- The file multer puts in `req.file`: the client's filename and, with disk
storage (`server.js`), the path of the stored copy. The memory-storage handler
does not read `path`. -/
structure UploadedFile where
  originalname : String
  path : String

/-- A submit-resume request after multer has run: `req.method`, `req.file`
(absent when no file came) and the `roastLevel` field of `req.body`. The Express
route is registered with `app.post`, so `server.js` does not read `method`. -/
structure ResumeRequest where
  method : String
  file : Option UploadedFile
  roastLevel : Option String

/-- `choices[0].message` of the provider envelope: `content` is a string or is
absent. -/
structure Message where
  content : Option String

/-- One entry of `choices`: `message` is present or absent. -/
structure Choice where
  message : Option Message

/-- The body of a provider response, `response.data`: `choices` is an array of
entries or is absent. -/
structure Envelope where
  choices : Option (List Choice)

/-- What `await axios.post(...)` does: it rejects (transport failure, or a
status outside 2xx) or resolves with a response whose `data` is the envelope. -/
inductive ProviderOutcome where
  | rejected : ProviderOutcome
  | resolved (data : Envelope) : ProviderOutcome

/-- What the text extractor called for the upload does (`pdfParse` for pdf,
`mammoth.extractRawText` for docx): it rejects, or resolves with the text. -/
inductive ExtractOutcome where
  | failed : ExtractOutcome
  | text (extractedText : String) : ExtractOutcome

/-- An external call made by a handler. -/
inductive Call where
  | extract (fileExt : String) : Call
  | provider (systemPrompt userPrompt : String) : Call
  deriving DecidableEq, Repr

/-- Whether a call is the `axios.post` to the provider. -/
def Call.isProvider : Call → Bool
  | Call.provider _ _ => true
  | Call.extract _ => false

/-- What a handler run leaves behind: the status and the value given to
`res.json`, and the external calls made, in order. -/
structure Result where
  status : Nat
  body : JsVal
  calls : List Call

/-- Number of provider calls of a run. -/
def Result.providerCalls (r : Result) : Nat :=
  (r.calls.filter Call.isProvider).length

/-! ## Platform operations used by the handlers -/

/-- `!x` for a value that is a string or `undefined`: true for `undefined` and
for the empty string. -/
def falsy : Option String → Bool
  | none => true
  | some s => s = ""

/-- `${x}` inside a template literal, and the string conversion `JSON.parse`
applies to its argument, for a value that is a string or `undefined`. -/
def toText : Option String → String
  | none => "undefined"
  | some s => s

/-- A string-or-`undefined` as a JavaScript value. -/
def toJs : Option String → JsVal
  | none => JsVal.undefined
  | some s => JsVal.str s

/-- `s.split(sep)` for a one-character separator: the pieces between the
separators, always at least one piece. -/
def split (sep : Char) : List Char → List (List Char)
  | [] => [[]]
  | c :: cs =>
    if c = sep then [] :: split sep cs
    else
      match split sep cs with
      | [] => [[c]]
      | piece :: pieces => (c :: piece) :: pieces

/-- `pieces.pop()` read for its value: the last piece. -/
def pop : List (List Char) → List Char
  | [] => []
  | [piece] => piece
  | _ :: pieces => pop pieces

/-- `s.toLowerCase()`. Letters outside ASCII are left as they are; none of
them lower-cases to a letter of `pdf` or `docx`. -/
def toLowerCase (cs : List Char) : List Char :=
  cs.map Char.toLower

/-- `req.file.originalname.split(".").pop().toLowerCase()`. -/
def fileExtOf (originalname : String) : String :=
  String.mk (toLowerCase (pop (split '.' originalname.data)))

/-- `response.data.choices[0].message.content`: reading a property of
`undefined` throws `TypeError`; an absent `content` reads as `undefined`. -/
def readContent (data : Envelope) : Except JsError (Option String) :=
  match data.choices with
  | none => Except.error JsError.TypeError
  | some [] => Except.error JsError.TypeError
  | some (choice :: _) =>
    match choice.message with
    | none => Except.error JsError.TypeError
    | some message => Except.ok message.content

/-- `formattedResponse.title = t` in a script without `"use strict"`: throws
`TypeError` on `null`, sets the own property of an object, and is ignored on a
number, a string or a boolean. An array takes the property as a named one, which
`res.json` does not serialise, so the array is handed on as it is. -/
def assignTitle (t : String) : JsVal → Except JsError JsVal
  | JsVal.undefined => Except.error JsError.TypeError
  | JsVal.null => Except.error JsError.TypeError
  | JsVal.obj props => Except.ok (JsVal.obj (JsVal.assign "title" (JsVal.str t) props))
  | other => Except.ok other

/-- The body `{ error: message }`. -/
def errorBody (message : String) : JsVal :=
  JsVal.obj [("error", JsVal.str message)]

/-- `fs.readFileSync(path)` over the set of stored files, read for whether it
throws. -/
def readFileSync (path : String) (files : List String) : Except JsError Unit :=
  if path ∈ files then Except.ok () else Except.error JsError.ENOENT

/-- `fs.unlinkSync(path)` over the set of stored files: removes the file, or
throws when there is none. -/
def unlinkSync (path : String) (files : List String) : Except JsError (List String) :=
  if path ∈ files then Except.ok (files.filter (fun f => f ≠ path))
  else Except.error JsError.ENOENT


/-! ## `api/roast-project.js` -/

namespace ApiRoastProject

/-- The system instruction, lines 49-54. -/
def systemPrompt (roastLevel : Option String) : String :=
  if roastLevel = some "spicy" then
    "You are a brutally honest expert at roasting project ideas."
  else if roastLevel = some "extra_burn" then
    "You are a savage expert at roasting project ideas with maximum intensity."
  else
    "You are an expert at reviewing and roasting project ideas."

/-- The user instruction, the template literal of lines 56-68. -/
def userPrompt (projectDescription projectLink : Option String) : String :=
  "Roast this project idea harshly. Your response must follow this exact JSON format with the following fields:\n"
    ++ "    \n"
    ++ "    \x7b\n"
    ++ "      \"roast\": \"A brutal overall roast (3-5 sentences max) highlighting the major flaws\",\n"
    ++ "      \"rating\": \"A rating out of 10\",\n"
    ++ "      \"keyIssues\": [\"Issue 1\", \"Issue 2\", \"Issue 3\"],\n"
    ++ "      \"actionItems\": [\"Action 1\", \"Action 2\", \"Action 3\"]\n"
    ++ "    \x7d\n"
    ++ "    \n"
    ++ "    Provide exactly 3 key issues and 3 action items. Keep your roast under 150 words. Be direct and savage.\n"
    ++ "    \n"
    ++ "    Project Description: " ++ toText projectDescription ++ "\n"
    ++ "    Project Link: " ++ toText projectLink

/-- The response normalisation, lines 89-115: the inner `try` reads the
content, parses it and sets the title; its `catch` reads the content again
(outside any inner `try`, so a throw there leaves the block) and builds the
fallback object. -/
def formattedResponse (data : Envelope) : Except JsError JsVal :=
  let attempt : Except JsError JsVal :=
    match readContent data with
    | Except.error e => Except.error e
    | Except.ok content =>
      match JSON.parse (toText content) with
      | Except.error e => Except.error e
      | Except.ok parsed => assignTitle "Project Roast" parsed
  match attempt with
  | Except.ok v => Except.ok v
  | Except.error _ =>
    match readContent data with
    | Except.error e => Except.error e
    | Except.ok content =>
      Except.ok (JsVal.obj [
        ("title", JsVal.str "Project Roast"),
        ("roast", toJs content),
        ("rating", JsVal.str "N/A"),
        ("keyIssues", JsVal.arr [
          JsVal.str "Could not parse structured feedback",
          JsVal.str "Review the full roast for details",
          JsVal.str "Try submitting again for better results"]),
        ("actionItems", JsVal.arr [
          JsVal.str "Consider the points mentioned in the roast",
          JsVal.str "Provide clearer project details",
          JsVal.str "Use the roast feedback to improve your project"])])

/-- The exported handler, lines 33-125 after the CORS middleware. Everything
from the destructuring of `req.body` (line 43) on is inside the outer `try`,
whose `catch` answers 500: destructuring an absent `req.body` throws
`TypeError` before the validation of line 45 is reached. -/
def handler (req : ProjectRequest) (provider : ProviderOutcome) : Result :=
  if req.method ≠ "POST" then
    Result.mk 405 (errorBody "Method not allowed") []
  else
    match req.body with
    | none => Result.mk 500 (errorBody "An error occurred while roasting the project.") []
    | some body =>
      if falsy body.projectDescription || falsy body.projectLink then
        Result.mk 400
          (errorBody "Both project description and project link are required.") []
      else
        let calls := [Call.provider (systemPrompt body.roastLevel)
          (userPrompt body.projectDescription body.projectLink)]
        match provider with
        | ProviderOutcome.rejected =>
          Result.mk 500 (errorBody "An error occurred while roasting the project.") calls
        | ProviderOutcome.resolved data =>
          match formattedResponse data with
          | Except.ok formatted => Result.mk 200 formatted calls
          | Except.error _ =>
            Result.mk 500 (errorBody "An error occurred while roasting the project.") calls

end ApiRoastProject

/-! ## `api/roast-resume.js` -/

namespace ApiRoastResume

/-- The system instruction, lines 71-76. -/
def systemPrompt (roastLevel : Option String) : String :=
  if roastLevel = some "spicy" then
    "You are a brutally honest resume reviewer."
  else if roastLevel = some "extra_burn" then
    "You are a savage resume reviewer with maximum intensity."
  else
    "You are a professional resume reviewer."

/-- The user instruction, the template literal of lines 78-90. -/
def userPrompt (extractedText : String) : String :=
  "Roast this resume harshly. Your response must follow this exact JSON format with the following fields:\n"
    ++ "    \n"
    ++ "    \x7b\n"
    ++ "      \"roast\": \"A brutal overall roast (3-5 sentences max) highlighting the major flaws\",\n"
    ++ "      \"rating\": \"A rating out of 10\",\n"
    ++ "      \"keyIssues\": [\"Issue 1\", \"Issue 2\", \"Issue 3\"],\n"
    ++ "      \"actionItems\": [\"Action 1\", \"Action 2\", \"Action 3\"]\n"
    ++ "    \x7d\n"
    ++ "    \n"
    ++ "    Provide exactly 3 key issues and 3 action items. Keep your roast under 150 words. Be direct and savage.\n"
    ++ "    \n"
    ++ "    Resume Content:\n"
    ++ "    " ++ extractedText

/-- The response normalisation, lines 111-137: the inner `try` reads the
content, parses it and sets the title; its `catch` reads the content again
(outside any inner `try`, so a throw there leaves the block) and builds the
fallback object. -/
def formattedResponse (data : Envelope) : Except JsError JsVal :=
  let attempt : Except JsError JsVal :=
    match readContent data with
    | Except.error e => Except.error e
    | Except.ok content =>
      match JSON.parse (toText content) with
      | Except.error e => Except.error e
      | Except.ok parsed => assignTitle "Resume Roast" parsed
  match attempt with
  | Except.ok v => Except.ok v
  | Except.error _ =>
    match readContent data with
    | Except.error e => Except.error e
    | Except.ok content =>
      Except.ok (JsVal.obj [
        ("title", JsVal.str "Resume Roast"),
        ("roast", toJs content),
        ("rating", JsVal.str "N/A"),
        ("keyIssues", JsVal.arr [
          JsVal.str "Could not parse structured feedback",
          JsVal.str "Review the full roast for details",
          JsVal.str "Try submitting again for better results"]),
        ("actionItems", JsVal.arr [
          JsVal.str "Consider the points mentioned in the roast",
          JsVal.str "Submit a clearer resume format",
          JsVal.str "Use the roast feedback to make improvements"])])

/-- Lines 71-139: from the prompts to the 200 answer, once the text is
extracted. A throw on the way reaches the outer `catch`, which answers 500. -/
def roast (roastLevel : Option String) (extractedText : String)
    (provider : ProviderOutcome) (calls : List Call) : Result :=
  let calls := calls ++ [Call.provider (systemPrompt roastLevel) (userPrompt extractedText)]
  match provider with
  | ProviderOutcome.rejected =>
    Result.mk 500 (errorBody "An error occurred while processing the resume.") calls
  | ProviderOutcome.resolved data =>
    match formattedResponse data with
    | Except.ok body => Result.mk 200 body calls
    | Except.error _ =>
      Result.mk 500 (errorBody "An error occurred while processing the resume.") calls

/-- Lines 61-66: the extractor call of either supported format. -/
def extract (fileExt : String) (roastLevel : Option String) (extractor : ExtractOutcome)
    (provider : ProviderOutcome) : Result :=
  match extractor with
  | ExtractOutcome.failed =>
    Result.mk 500 (errorBody "An error occurred while processing the resume.")
      [Call.extract fileExt]
  | ExtractOutcome.text extractedText =>
    roast roastLevel extractedText provider [Call.extract fileExt]

/-- The exported handler, lines 40-147 after the CORS middleware and multer. -/
def handler (req : ResumeRequest) (extractor : ExtractOutcome)
    (provider : ProviderOutcome) : Result :=
  if req.method ≠ "POST" then
    Result.mk 405 (errorBody "Method not allowed") []
  else
    match req.file with
    | none => Result.mk 400 (errorBody "No file uploaded") []
    | some file =>
      let fileExt := fileExtOf file.originalname
      if fileExt = "pdf" then extract fileExt req.roastLevel extractor provider
      else if fileExt = "docx" then extract fileExt req.roastLevel extractor provider
      else Result.mk 400 (errorBody "Unsupported file format") []

end ApiRoastResume

/-! ## `server.js` -/

namespace Server

/-! ### `app.post("/api/roast-resume")` -/

namespace RoastResume

/-- The system instruction, lines 83-88. -/
def systemPrompt (roastLevel : Option String) : String :=
  if roastLevel = some "spicy" then
    "You are a brutally honest resume reviewer."
  else if roastLevel = some "extra_burn" then
    "You are a savage resume reviewer with maximum intensity."
  else
    "You are a professional resume reviewer."

/-- The user instruction, the template literal of lines 89-101. -/
def userPrompt (extractedText : String) : String :=
  "Roast this resume harshly. Your response must follow this exact JSON format with the following fields:\n"
    ++ "    \n"
    ++ "    \x7b\n"
    ++ "      \"roast\": \"A brutal overall roast (3-5 sentences max) highlighting the major flaws\",\n"
    ++ "      \"rating\": \"A rating out of 10\",\n"
    ++ "      \"keyIssues\": [\"Issue 1\", \"Issue 2\", \"Issue 3\"],\n"
    ++ "      \"actionItems\": [\"Action 1\", \"Action 2\", \"Action 3\"]\n"
    ++ "    \x7d\n"
    ++ "    \n"
    ++ "    Provide exactly 3 key issues and 3 action items. Keep your roast under 150 words. Be direct and savage.\n"
    ++ "    \n"
    ++ "    Resume Content:\n"
    ++ "    " ++ extractedText

/-- The response normalisation, lines 124-151: the inner `try` reads the
content, parses it and sets the title; its `catch` reads the content again
(outside any inner `try`, so a throw there leaves the block) and builds the
fallback object. -/
def formattedResponse (data : Envelope) : Except JsError JsVal :=
  let attempt : Except JsError JsVal :=
    match readContent data with
    | Except.error e => Except.error e
    | Except.ok content =>
      match JSON.parse (toText content) with
      | Except.error e => Except.error e
      | Except.ok parsed => assignTitle "Resume Roast" parsed
  match attempt with
  | Except.ok v => Except.ok v
  | Except.error _ =>
    match readContent data with
    | Except.error e => Except.error e
    | Except.ok content =>
      Except.ok (JsVal.obj [
        ("title", JsVal.str "Resume Roast"),
        ("roast", toJs content),
        ("rating", JsVal.str "N/A"),
        ("keyIssues", JsVal.arr [
          JsVal.str "Could not parse structured feedback",
          JsVal.str "Review the full roast for details",
          JsVal.str "Try submitting again for better results"]),
        ("actionItems", JsVal.arr [
          JsVal.str "Consider the points mentioned in the roast",
          JsVal.str "Submit a clearer resume format",
          JsVal.str "Use the roast feedback to make improvements"])])

/-- Lines 83-153: from the prompts to `res.json(formattedResponse)`, which
answers with the default status 200. A throw on the way reaches the `catch` of
line 154, which answers 500. -/
def roast (roastLevel : Option String) (extractedText : String)
    (provider : ProviderOutcome) (calls : List Call) : Result :=
  let calls := calls ++ [Call.provider (systemPrompt roastLevel) (userPrompt extractedText)]
  match provider with
  | ProviderOutcome.rejected =>
    Result.mk 500 (errorBody "An error occurred while processing the resume.") calls
  | ProviderOutcome.resolved data =>
    match formattedResponse data with
    | Except.ok body => Result.mk 200 body calls
    | Except.error _ =>
      Result.mk 500 (errorBody "An error occurred while processing the resume.") calls

/-- Lines 70-77: the extractor call of either supported format. -/
def extract (fileExt : String) (roastLevel : Option String) (extractor : ExtractOutcome)
    (provider : ProviderOutcome) : Result :=
  match extractor with
  | ExtractOutcome.failed =>
    Result.mk 500 (errorBody "An error occurred while processing the resume.")
      [Call.extract fileExt]
  | ExtractOutcome.text extractedText =>
    roast roastLevel extractedText provider [Call.extract fileExt]

/-- The `try` and `catch` of lines 56-158 for a request with a file: the answer
and the stored files they leave. The pdf branch reads the stored file first;
the branch of an unsupported format unlinks it before answering 400, and a
throw of that `unlinkSync` reaches the `catch`. -/
def tryCatch (file : UploadedFile) (roastLevel : Option String) (files : List String)
    (extractor : ExtractOutcome) (provider : ProviderOutcome) : Result × List String :=
  let filePath := file.path
  let fileExt := fileExtOf file.originalname
  if fileExt = "pdf" then
    match readFileSync filePath files with
    | Except.error _ =>
      (Result.mk 500 (errorBody "An error occurred while processing the resume.") [], files)
    | Except.ok _ => (extract fileExt roastLevel extractor provider, files)
  else if fileExt = "docx" then
    (extract fileExt roastLevel extractor provider, files)
  else
    match unlinkSync filePath files with
    | Except.error _ =>
      (Result.mk 500 (errorBody "An error occurred while processing the resume.") [], files)
    | Except.ok remaining =>
      (Result.mk 400 (errorBody "Unsupported file format") [], remaining)

/-- The route handler, lines 54-168, after multer has stored the upload:
`files` are the paths present in the upload directory. Without a file it
answers 400 and `filePath` stays unset, so `finally` does nothing; with one,
`finally` tests `if (filePath)`, unlinks `filePath` and swallows a throw of
`unlinkSync`. -/
def handler (req : ResumeRequest) (files : List String) (extractor : ExtractOutcome)
    (provider : ProviderOutcome) : Result × List String :=
  match req.file with
  | none => (Result.mk 400 (errorBody "No file uploaded") [], files)
  | some file =>
    let filePath := file.path
    let done := tryCatch file req.roastLevel files extractor provider
    if falsy (some filePath) then done
    else
      match unlinkSync filePath done.2 with
      | Except.ok remaining => (done.1, remaining)
      | Except.error _ => (done.1, done.2)

end RoastResume

/-! ### `app.post("/api/roast-project")` -/

namespace RoastProject

/-- The system instruction, lines 178-186. -/
def systemPrompt (roastLevel : Option String) : String :=
  if roastLevel = some "spicy" then
    "You are a brutally honest expert at roasting project ideas."
  else if roastLevel = some "extra_burn" then
    "You are a savage expert at roasting project ideas with maximum intensity."
  else
    "You are an expert at reviewing and roasting project ideas."

/-- The user instruction, the template literal of lines 187-199. -/
def userPrompt (projectDescription projectLink : Option String) : String :=
  "Roast this project idea harshly. Your response must follow this exact JSON format with the following fields:\n"
    ++ "    \n"
    ++ "    \x7b\n"
    ++ "      \"roast\": \"A brutal overall roast (3-5 sentences max) highlighting the major flaws\",\n"
    ++ "      \"rating\": \"A rating out of 10\",\n"
    ++ "      \"keyIssues\": [\"Issue 1\", \"Issue 2\", \"Issue 3\"],\n"
    ++ "      \"actionItems\": [\"Action 1\", \"Action 2\", \"Action 3\"]\n"
    ++ "    \x7d\n"
    ++ "    \n"
    ++ "    Provide exactly 3 key issues and 3 action items. Keep your roast under 150 words. Be direct and savage.\n"
    ++ "    \n"
    ++ "    Project Description: " ++ toText projectDescription ++ "\n"
    ++ "    Project Link: " ++ toText projectLink

/-- The response normalisation, lines 220-247: the inner `try` reads the
content, parses it and sets the title; its `catch` reads the content again
(outside any inner `try`, so a throw there leaves the block) and builds the
fallback object. -/
def formattedResponse (data : Envelope) : Except JsError JsVal :=
  let attempt : Except JsError JsVal :=
    match readContent data with
    | Except.error e => Except.error e
    | Except.ok content =>
      match JSON.parse (toText content) with
      | Except.error e => Except.error e
      | Except.ok parsed => assignTitle "Project Roast" parsed
  match attempt with
  | Except.ok v => Except.ok v
  | Except.error _ =>
    match readContent data with
    | Except.error e => Except.error e
    | Except.ok content =>
      Except.ok (JsVal.obj [
        ("title", JsVal.str "Project Roast"),
        ("roast", toJs content),
        ("rating", JsVal.str "N/A"),
        ("keyIssues", JsVal.arr [
          JsVal.str "Could not parse structured feedback",
          JsVal.str "Review the full roast for details",
          JsVal.str "Try submitting again for better results"]),
        ("actionItems", JsVal.arr [
          JsVal.str "Consider the points mentioned in the roast",
          JsVal.str "Provide clearer project details",
          JsVal.str "Use the roast feedback to improve your project"])])

/-- The route handler, lines 170-256; `reqBody` is `req.body`, the parsed JSON
object or absent. Everything from the destructuring of `req.body` (line 172) on
is inside the `try`, whose `catch` answers 500: destructuring an absent
`req.body` throws `TypeError`. `res.json(formattedResponse)` answers with the
default status 200. -/
def handler (reqBody : Option ProjectBody) (provider : ProviderOutcome) : Result :=
  match reqBody with
  | none => Result.mk 500 (errorBody "An error occurred while roasting the project.") []
  | some body =>
    if falsy body.projectDescription || falsy body.projectLink then
      Result.mk 400
        (errorBody "Both project description and project link are required.") []
    else
      let calls := [Call.provider (systemPrompt body.roastLevel)
        (userPrompt body.projectDescription body.projectLink)]
      match provider with
      | ProviderOutcome.rejected =>
        Result.mk 500 (errorBody "An error occurred while roasting the project.") calls
      | ProviderOutcome.resolved data =>
        match formattedResponse data with
        | Except.ok formatted => Result.mk 200 formatted calls
        | Except.error _ =>
          Result.mk 500 (errorBody "An error occurred while roasting the project.") calls

end RoastProject

end Server

/-! ## The Verdict schema -/

/-- Whether a value is an array of exactly three entries. -/
def threeEntries : JsVal → Bool
  | JsVal.arr [_, _, _] => true
  | _ => false

/-- Whether a property list has a property `k` (one whose value is not
`undefined`, which `res.json` would leave out). -/
def hasField (k : String) (props : List (String × JsVal)) : Bool :=
  match JsVal.lookup k props with
  | JsVal.undefined => false
  | _ => true

/-- The Verdict schema of the response body: an object with `title`, `roast`
and `rating`, whose `keyIssues` and `actionItems` are arrays of exactly three
entries. -/
def isVerdict : JsVal → Bool
  | JsVal.obj props =>
    hasField "title" props && hasField "roast" props && hasField "rating" props
      && threeEntries (JsVal.lookup "keyIssues" props)
      && threeEntries (JsVal.lookup "actionItems" props)
  | _ => false

/-! ## Sample inputs -/

namespace Sample

/-- The project body of the spec's end-to-end scenario. -/
def projectBody : ProjectBody :=
  ProjectBody.mk (some "A todo app") (some "http://x.com") (some "spicy")

/-- The project request of the spec's end-to-end scenario. -/
def projectRequest : ProjectRequest :=
  ProjectRequest.mk "POST" (some projectBody)

/-- The body of the spec's scenario without its `projectLink`. -/
def bodyWithoutLink : ProjectBody :=
  ProjectBody.mk (some "A todo app") none (some "spicy")

/-- The project request of the spec's scenario without its `projectLink`. -/
def projectWithoutLink : ProjectRequest :=
  ProjectRequest.mk "POST" (some bodyWithoutLink)

/-- A POST project request that carries no body: `req.body` is absent. -/
def projectWithoutBody : ProjectRequest :=
  ProjectRequest.mk "POST" none

/-- An upload `cv.pdf`, stored by multer as `uploads/1-cv.pdf`. -/
def cvPdf : UploadedFile := UploadedFile.mk "cv.pdf" "uploads/1-cv.pdf"

/-- An upload `notes.txt`, stored by multer as `uploads/1-notes.txt`. -/
def notesTxt : UploadedFile := UploadedFile.mk "notes.txt" "uploads/1-notes.txt"

/-- A resume request with the upload `cv.pdf` and no `roastLevel`. -/
def cvRequest : ResumeRequest := ResumeRequest.mk "POST" (some cvPdf) none

/-- A resume request with the upload `notes.txt` and no `roastLevel`. -/
def notesRequest : ResumeRequest := ResumeRequest.mk "POST" (some notesTxt) none

/-- A resume request whose upload is named `pdf`, a filename without a dot. -/
def dotlessRequest : ResumeRequest :=
  ResumeRequest.mk "POST" (some (UploadedFile.mk "pdf" "uploads/1-pdf")) none

/-- A provider envelope with one choice, whose message has the given `content`
(`none` for an absent `content`). -/
def envelope (content : Option String) : Envelope :=
  Envelope.mk (some [Choice.mk (some (Message.mk content))])

/-- The provider content of the spec's normalisation example: a JSON object
with `roast`, `rating`, three `keyIssues` and three `actionItems`. -/
def verdict : String :=
  "\x7b\"roast\":\"x\",\"rating\":\"5\",\"keyIssues\":[\"a\",\"b\",\"c\"]," ++
    "\"actionItems\":[\"d\",\"e\",\"f\"]\x7d"

/-- The same content with a `title` of the provider's own in front. -/
def titledVerdict : String :=
  "\x7b\"title\":\"Best idea ever\",\"roast\":\"x\",\"rating\":\"5\"," ++
    "\"keyIssues\":[\"a\",\"b\",\"c\"],\"actionItems\":[\"d\",\"e\",\"f\"]\x7d"

end Sample

/-! ## Lemmas on the parser -/

namespace JSON

theorem skipWs_length (cs : List Char) : (skipWs cs).length ≤ cs.length := by
  induction cs with
  | nil => simp [skipWs]
  | cons c cs ih =>
    simp only [skipWs]
    split_ifs
    · exact Nat.le_succ_of_le ih
    · exact Nat.le_refl _

theorem takeDigits_length (cs : List Char) : (takeDigits cs).2.length ≤ cs.length := by
  induction cs with
  | nil => simp [takeDigits]
  | cons c cs ih =>
    simp only [takeDigits]
    split_ifs
    · exact Nat.le_succ_of_le ih
    · exact Nat.le_refl _

theorem intPart_length (cs i r : List Char) (h : intPart cs = some (i, r)) :
    r.length < cs.length := by
  unfold intPart at h
  split at h
  · simp only [Option.some.injEq, Prod.mk.injEq] at h
    obtain ⟨-, rfl⟩ := h
    simp
  · split_ifs at h
    simp only [Option.some.injEq, Prod.mk.injEq] at h
    obtain ⟨-, rfl⟩ := h
    exact Nat.lt_succ_of_le (takeDigits_length _)
  · simp at h

theorem fracPart_length (cs f r : List Char) (h : fracPart cs = some (f, r)) :
    r.length ≤ cs.length := by
  unfold fracPart at h
  split at h
  · rename_i rest
    have hd := takeDigits_length rest
    split at h
    · simp at h
    · rename_i ds rest2 hne heq
      simp only [Option.some.injEq, Prod.mk.injEq] at h
      obtain ⟨-, rfl⟩ := h
      rw [heq] at hd
      exact Nat.le_succ_of_le hd
  · simp only [Option.some.injEq, Prod.mk.injEq] at h
    obtain ⟨-, rfl⟩ := h
    exact Nat.le_refl _

theorem expDigits_length (m cs e r : List Char) (h : expDigits m cs = some (e, r)) :
    r.length ≤ cs.length := by
  unfold expDigits at h
  have hd := takeDigits_length cs
  split at h
  · simp at h
  · rename_i ds rest hne heq
    simp only [Option.some.injEq, Prod.mk.injEq] at h
    obtain ⟨-, rfl⟩ := h
    rw [heq] at hd
    exact hd

theorem expPart_length (cs e r : List Char) (h : expPart cs = some (e, r)) :
    r.length ≤ cs.length := by
  unfold expPart at h
  split at h
  all_goals first
    | exact Nat.le_trans (expDigits_length _ _ _ _ h) (by simp only [List.length_cons]; omega)
    | (simp only [Option.some.injEq, Prod.mk.injEq] at h; obtain ⟨-, rfl⟩ := h; exact Nat.le_refl _)

theorem unsignedNumber_length (cs l r : List Char) (h : unsignedNumber cs = some (l, r)) :
    r.length < cs.length := by
  unfold unsignedNumber at h
  split at h
  · simp at h
  · rename_i i r1 hi
    split at h
    · simp at h
    · rename_i f r2 hf
      split at h
      · simp at h
      · rename_i e r3 he
        simp only [Option.some.injEq, Prod.mk.injEq] at h
        obtain ⟨-, rfl⟩ := h
        have h1 := intPart_length _ _ _ hi
        have h2 := fracPart_length _ _ _ hf
        have h3 := expPart_length _ _ _ he
        omega

theorem parseNumber_length (cs : List Char) (v : JsVal) (r : List Char)
    (h : parseNumber cs = some (v, r)) : r.length < cs.length := by
  unfold parseNumber at h
  split at h
  · split at h
    · simp at h
    · rename_i l r' hu
      simp only [Option.some.injEq, Prod.mk.injEq] at h
      obtain ⟨-, rfl⟩ := h
      have := unsignedNumber_length _ _ _ hu
      simp only [List.length_cons]
      omega
  · split at h
    · simp at h
    · rename_i l r' hu
      simp only [Option.some.injEq, Prod.mk.injEq] at h
      obtain ⟨-, rfl⟩ := h
      exact unsignedNumber_length _ _ _ hu

theorem parseChars_length (f : Nat) : ∀ (cs acc : List Char) (s : String) (r : List Char),
    parseChars f cs acc = some (s, r) → r.length < cs.length := by
  induction f with
  | zero => intro cs acc s r h; simp [parseChars] at h
  | succ f ih =>
    intro cs acc s r h
    unfold parseChars at h
    split at h
    · simp at h
    · simp only [Option.some.injEq, Prod.mk.injEq] at h
      obtain ⟨-, rfl⟩ := h
      simp
    · split at h
      · simp at h
      · split at h
        · split at h
          · simp at h
          · split_ifs at h
            · have := ih _ _ _ _ h
              simp_all only [List.length_cons]
              omega
            · have := ih _ _ _ _ h
              simp_all only [List.length_cons]
              omega
        · have := ih _ _ _ _ h
          simp only [List.length_cons] at this ⊢
          omega
    · split_ifs at h <;>
        exact Nat.lt_trans (ih _ _ _ _ h) (by simp only [List.length_cons]; omega)
    · split_ifs at h
      have := ih _ _ _ _ h
      simp only [List.length_cons]
      omega


/-- More fuel than the length of the text never changes what `parseChars`
returns: the fuel `rest.length + 1` the parser gives it is enough. -/
theorem parseChars_fuel (f : Nat) : ∀ (g : Nat) (cs acc : List Char),
    cs.length < f → cs.length < g → parseChars f cs acc = parseChars g cs acc := by
  induction f with
  | zero => intro g cs acc h; omega
  | succ f ih =>
    intro g cs acc hf hg
    cases g with
    | zero => omega
    | succ g =>
      unfold parseChars
      split
      · rfl
      · rfl
      · split
        · rfl
        · split
          · split
            · rfl
            · split
              · apply ih <;> simp_all <;> omega
              · apply ih <;> simp_all <;> omega
          · apply ih <;> simp_all <;> omega
      · simp only [List.length_cons] at hf hg
        split_ifs <;> first | rfl | (apply ih <;> omega)
      · simp only [List.length_cons] at hf hg
        split_ifs <;> first | rfl | (apply ih <;> omega)

theorem parseLiteral_length (cs : List Char) (v : JsVal) (r : List Char)
    (h : parseLiteral cs = some (v, r)) : r.length < cs.length := by
  unfold parseLiteral at h
  split_ifs at h with h1 h2 h3
  · have := (List.isPrefixOf_iff_prefix.mp h1).length_le
    simp only [Option.some.injEq, Prod.mk.injEq] at h
    obtain ⟨-, rfl⟩ := h
    simp only [List.length_cons, List.length_nil, List.length_drop] at this ⊢
    omega
  · have := (List.isPrefixOf_iff_prefix.mp h2).length_le
    simp only [Option.some.injEq, Prod.mk.injEq] at h
    obtain ⟨-, rfl⟩ := h
    simp only [List.length_cons, List.length_nil, List.length_drop] at this ⊢
    omega
  · have := (List.isPrefixOf_iff_prefix.mp h3).length_le
    simp only [Option.some.injEq, Prod.mk.injEq] at h
    obtain ⟨-, rfl⟩ := h
    simp only [List.length_cons, List.length_nil, List.length_drop] at this ⊢
    omega
  · exact parseNumber_length _ _ _ h

theorem fuel_bound (g : Nat) :
    (∀ cs v rest, parseValue g cs = some (v, rest) →
      rest.length < cs.length ∧
        ∀ f, cs.length - rest.length ≤ f → parseValue f cs = some (v, rest)) ∧
    (∀ cs acc v rest, parseElements g cs acc = some (v, rest) →
      rest.length < cs.length ∧
        ∀ f, cs.length - rest.length ≤ f → parseElements f cs acc = some (v, rest)) ∧
    (∀ cs acc v rest, parseMembers g cs acc = some (v, rest) →
      rest.length < cs.length ∧
        ∀ f, cs.length - rest.length ≤ f → parseMembers f cs acc = some (v, rest)) := by
  induction g with
  | zero =>
    refine ⟨?_, ?_, ?_⟩ <;> intros <;> simp_all [parseValue, parseElements, parseMembers]
  | succ g ih =>
    obtain ⟨ihV, ihE, ihM⟩ := ih
    refine ⟨?_, ?_, ?_⟩
    · intro cs v rest h
      have hws := skipWs_length cs
      unfold parseValue at h
      split at h
      · -- the value is an object
        rename_i r heq
        have hws2 := skipWs_length r
        rw [heq] at hws
        simp only [List.length_cons] at hws
        split at h
        · rename_i r2 heq2
          rw [heq2] at hws2
          simp only [List.length_cons] at hws2
          simp only [Option.some.injEq, Prod.mk.injEq] at h
          obtain ⟨rfl, rfl⟩ := h
          refine ⟨by omega, ?_⟩
          intro f hf
          obtain ⟨f', rfl⟩ : ∃ f', f = f' + 1 := ⟨f - 1, by omega⟩
          unfold parseValue
          simp only [heq, heq2]
        · rename_i r2 hne
          obtain ⟨hlt, hfuel⟩ := ihM _ _ _ _ h
          refine ⟨by omega, ?_⟩
          intro f hf
          obtain ⟨f', rfl⟩ : ∃ f', f = f' + 1 := ⟨f - 1, by omega⟩
          unfold parseValue
          simp only [heq]
          exact hfuel f' (by omega)
      · -- the value is an array
        rename_i r heq
        have hws2 := skipWs_length r
        rw [heq] at hws
        simp only [List.length_cons] at hws
        split at h
        · rename_i r2 heq2
          rw [heq2] at hws2
          simp only [List.length_cons] at hws2
          simp only [Option.some.injEq, Prod.mk.injEq] at h
          obtain ⟨rfl, rfl⟩ := h
          refine ⟨by omega, ?_⟩
          intro f hf
          obtain ⟨f', rfl⟩ : ∃ f', f = f' + 1 := ⟨f - 1, by omega⟩
          unfold parseValue
          simp only [heq, heq2]
        · rename_i r2 hne
          obtain ⟨hlt, hfuel⟩ := ihE _ _ _ _ h
          refine ⟨by omega, ?_⟩
          intro f hf
          obtain ⟨f', rfl⟩ : ∃ f', f = f' + 1 := ⟨f - 1, by omega⟩
          unfold parseValue
          simp only [heq]
          exact hfuel f' (by omega)
      · -- the value is a string
        rename_i r heq
        rw [heq] at hws
        simp only [List.length_cons] at hws
        split at h
        · simp at h
        · rename_i s r2 hs
          have := parseChars_length _ _ _ _ _ hs
          simp only [Option.some.injEq, Prod.mk.injEq] at h
          obtain ⟨rfl, rfl⟩ := h
          refine ⟨by omega, ?_⟩
          intro f hf
          obtain ⟨f', rfl⟩ : ∃ f', f = f' + 1 := ⟨f - 1, by omega⟩
          unfold parseValue
          simp only [heq, hs]
      · -- the value is a literal or a number
        rename_i other h1 h2 h3
        have := parseLiteral_length _ _ _ h
        refine ⟨by omega, ?_⟩
        intro f hf
        obtain ⟨f', rfl⟩ : ∃ f', f = f' + 1 := ⟨f - 1, by omega⟩
        unfold parseValue
        split
        · rename_i r heq; exact absurd heq (h1 r)
        · rename_i r heq; exact absurd heq (h2 r)
        · rename_i r heq; exact absurd heq (h3 r)
        · exact h
    · intro cs acc v rest h
      unfold parseElements at h
      split at h
      · simp at h
      · rename_i v1 r1 hv
        obtain ⟨hlt1, hfuel1⟩ := ihV _ _ _ hv
        have hws := skipWs_length r1
        split at h
        · rename_i r2 heq
          rw [heq] at hws
          simp only [List.length_cons] at hws
          obtain ⟨hlt2, hfuel2⟩ := ihE _ _ _ _ h
          refine ⟨by omega, ?_⟩
          intro f hf
          obtain ⟨f', rfl⟩ : ∃ f', f = f' + 1 := ⟨f - 1, by omega⟩
          unfold parseElements
          simp only [hfuel1 f' (by omega), heq]
          exact hfuel2 f' (by omega)
        · rename_i r2 heq
          rw [heq] at hws
          simp only [List.length_cons] at hws
          simp only [Option.some.injEq, Prod.mk.injEq] at h
          obtain ⟨rfl, rfl⟩ := h
          refine ⟨by omega, ?_⟩
          intro f hf
          obtain ⟨f', rfl⟩ : ∃ f', f = f' + 1 := ⟨f - 1, by omega⟩
          unfold parseElements
          simp only [hfuel1 f' (by omega), heq]
        · simp at h
    · intro cs acc v rest h
      have hws := skipWs_length cs
      unfold parseMembers at h
      split at h
      · rename_i r heq
        rw [heq] at hws
        simp only [List.length_cons] at hws
        split at h
        · simp at h
        · rename_i k r2 hk
          have hk2 := parseChars_length _ _ _ _ _ hk
          have hws2 := skipWs_length r2
          split at h
          · rename_i r3 heq3
            rw [heq3] at hws2
            simp only [List.length_cons] at hws2
            split at h
            · simp at h
            · rename_i v1 r4 hv
              obtain ⟨hlt1, hfuel1⟩ := ihV _ _ _ hv
              have hws4 := skipWs_length r4
              split at h
              · rename_i r5 heq5
                rw [heq5] at hws4
                simp only [List.length_cons] at hws4
                obtain ⟨hlt2, hfuel2⟩ := ihM _ _ _ _ h
                refine ⟨by omega, ?_⟩
                intro f hf
                obtain ⟨f', rfl⟩ : ∃ f', f = f' + 1 := ⟨f - 1, by omega⟩
                unfold parseMembers
                simp only [heq, hk, heq3, hfuel1 f' (by omega), heq5]
                exact hfuel2 f' (by omega)
              · rename_i r5 heq5
                rw [heq5] at hws4
                simp only [List.length_cons] at hws4
                simp only [Option.some.injEq, Prod.mk.injEq] at h
                obtain ⟨rfl, rfl⟩ := h
                refine ⟨by omega, ?_⟩
                intro f hf
                obtain ⟨f', rfl⟩ : ∃ f', f = f' + 1 := ⟨f - 1, by omega⟩
                unfold parseMembers
                simp only [heq, hk, heq3, hfuel1 f' (by omega), heq5]
              · simp at h
          · simp at h
      · simp at h

/-- More fuel than the length of the text never changes what the parser
returns: the fuel `text.length + 1` that `JSON.parse` gives it is enough. -/
theorem parseValue_fuel (cs : List Char) (g : Nat) (hg : cs.length + 1 ≤ g) :
    parseValue g cs = parseValue (cs.length + 1) cs := by
  cases h1 : parseValue g cs with
  | some r =>
    obtain ⟨v, rest⟩ := r
    exact ((fuel_bound g).1 cs v rest h1).2 _ (by omega) |>.symm
  | none =>
    cases h2 : parseValue (cs.length + 1) cs with
    | none => rfl
    | some r =>
      obtain ⟨v, rest⟩ := r
      have := ((fuel_bound _).1 cs v rest h2).2 g (by omega)
      rw [h1] at this
      exact this

theorem parseNumber_defined (cs : List Char) (v : JsVal) (r : List Char)
    (h : parseNumber cs = some (v, r)) : v ≠ JsVal.undefined := by
  unfold parseNumber at h
  split at h <;> split at h <;>
    first
      | (simp at h; done)
      | (simp only [Option.some.injEq, Prod.mk.injEq] at h
         obtain ⟨rfl, -⟩ := h
         simp)

theorem parseLiteral_defined (cs : List Char) (v : JsVal) (r : List Char)
    (h : parseLiteral cs = some (v, r)) : v ≠ JsVal.undefined := by
  unfold parseLiteral at h
  split_ifs at h
  · simp only [Option.some.injEq, Prod.mk.injEq] at h
    obtain ⟨rfl, -⟩ := h
    simp
  · simp only [Option.some.injEq, Prod.mk.injEq] at h
    obtain ⟨rfl, -⟩ := h
    simp
  · simp only [Option.some.injEq, Prod.mk.injEq] at h
    obtain ⟨rfl, -⟩ := h
    simp
  · exact parseNumber_defined _ _ _ h

theorem parse_defined_aux (g : Nat) :
    (∀ cs v rest, parseValue g cs = some (v, rest) → v ≠ JsVal.undefined) ∧
    (∀ cs acc v rest, parseElements g cs acc = some (v, rest) → v ≠ JsVal.undefined) ∧
    (∀ cs acc v rest, parseMembers g cs acc = some (v, rest) → v ≠ JsVal.undefined) := by
  induction g with
  | zero =>
    refine ⟨?_, ?_, ?_⟩ <;> intros <;> simp_all [parseValue, parseElements, parseMembers]
  | succ g ih =>
    obtain ⟨-, ihE, ihM⟩ := ih
    refine ⟨?_, ?_, ?_⟩
    · intro cs v rest h
      unfold parseValue at h
      split at h
      · split at h
        · simp only [Option.some.injEq, Prod.mk.injEq] at h
          obtain ⟨rfl, -⟩ := h
          simp
        · exact ihM _ _ _ _ h
      · split at h
        · simp only [Option.some.injEq, Prod.mk.injEq] at h
          obtain ⟨rfl, -⟩ := h
          simp
        · exact ihE _ _ _ _ h
      · split at h
        · simp at h
        · simp only [Option.some.injEq, Prod.mk.injEq] at h
          obtain ⟨rfl, -⟩ := h
          simp
      · exact parseLiteral_defined _ _ _ h
    · intro cs acc v rest h
      unfold parseElements at h
      split at h
      · simp at h
      · split at h
        · exact ihE _ _ _ _ h
        · simp only [Option.some.injEq, Prod.mk.injEq] at h
          obtain ⟨rfl, -⟩ := h
          simp
        · simp at h
    · intro cs acc v rest h
      unfold parseMembers at h
      split at h
      · split at h
        · simp at h
        · split at h
          · split at h
            · simp at h
            · split at h
              · exact ihM _ _ _ _ h
              · simp only [Option.some.injEq, Prod.mk.injEq] at h
                obtain ⟨rfl, -⟩ := h
                simp
              · simp at h
          · simp at h
      · simp at h

/-- `JSON.parse` never returns `undefined`. -/
theorem parse_defined (text : String) (v : JsVal) (h : parse text = Except.ok v) :
    v ≠ JsVal.undefined := by
  unfold parse at h
  split at h
  · simp at h
  · rename_i v' rest hv
    split at h
    · simp only [Except.ok.injEq] at h
      subst h
      exact (parse_defined_aux _).1 _ _ _ hv
    · simp at h

/-- `JSON.parse` fails with `SyntaxError` only. -/
theorem parse_error (text : String) (e : JsError) (h : parse text = Except.error e) :
    e = JsError.SyntaxError := by
  unfold parse at h
  split at h
  · simp only [Except.error.injEq] at h
    exact h.symm
  · split at h
    · simp at h
    · simp only [Except.error.injEq] at h
      exact h.symm

end JSON

/-! ## Lemmas on property lists -/

theorem lookup_assign_same (k : String) (v : JsVal) (props : List (String × JsVal)) :
    JsVal.lookup k (JsVal.assign k v props) = v := by
  induction props with
  | nil => simp [JsVal.assign, JsVal.lookup]
  | cons p rest ih =>
    obtain ⟨k', v'⟩ := p
    by_cases h : k' = k
    · simp [JsVal.assign, JsVal.lookup, h]
    · simp [JsVal.assign, JsVal.lookup, h, ih]

theorem lookup_assign_other (k j : String) (v : JsVal) (props : List (String × JsVal))
    (h : j ≠ k) : JsVal.lookup j (JsVal.assign k v props) = JsVal.lookup j props := by
  induction props with
  | nil => simp [JsVal.assign, JsVal.lookup, Ne.symm h]
  | cons p rest ih =>
    obtain ⟨k', v'⟩ := p
    by_cases hk : k' = k
    · subst hk
      simp [JsVal.assign, JsVal.lookup, Ne.symm h]
    · by_cases hj : k' = j
      · subst hj
        simp [JsVal.assign, JsVal.lookup, hk]
      · simp [JsVal.assign, JsVal.lookup, hk, hj, ih]

theorem isVerdict_assign_title (t : String) (o : List (String × JsVal)) :
    isVerdict (JsVal.obj (JsVal.assign "title" (JsVal.str t) o)) =
      (hasField "roast" o && hasField "rating" o
        && threeEntries (JsVal.lookup "keyIssues" o)
        && threeEntries (JsVal.lookup "actionItems" o)) := by
  have h0 := lookup_assign_same "title" (JsVal.str t) o
  have h1 := lookup_assign_other "title" "roast" (JsVal.str t) o (by decide)
  have h2 := lookup_assign_other "title" "rating" (JsVal.str t) o (by decide)
  have h3 := lookup_assign_other "title" "keyIssues" (JsVal.str t) o (by decide)
  have h4 := lookup_assign_other "title" "actionItems" (JsVal.str t) o (by decide)
  simp only [isVerdict, hasField, h0, h1, h2, h3, h4, Bool.true_and]

/-! ## Lemmas on the Express resume route -/

/-- With the stored upload in place and a supported format, the answer of the
Express resume route is that of its extraction and roast steps. -/
theorem Server.RoastResume.handler_supported (req : ResumeRequest) (file : UploadedFile)
    (files : List String) (extractor : ExtractOutcome) (provider : ProviderOutcome)
    (hfile : req.file = some file) (hstored : file.path ∈ files)
    (hext : fileExtOf file.originalname = "pdf" ∨ fileExtOf file.originalname = "docx") :
    (Server.RoastResume.handler req files extractor provider).1 =
      Server.RoastResume.extract (fileExtOf file.originalname) req.roastLevel extractor
        provider := by
  by_cases hpath : file.path = ""
  · have hempty : "" ∈ files := hpath ▸ hstored
    rcases hext with h | h <;>
      simp [Server.RoastResume.handler, Server.RoastResume.tryCatch, hfile, h, readFileSync,
        falsy, hpath, hempty]
  · rcases hext with h | h <;>
      simp [Server.RoastResume.handler, Server.RoastResume.tryCatch, hfile, h, readFileSync,
        unlinkSync, hstored, falsy, hpath]

/-- With the stored upload in place and an unsupported format, the Express
resume route answers 400 without any external call. -/
theorem Server.RoastResume.handler_unsupported (req : ResumeRequest) (file : UploadedFile)
    (files : List String) (extractor : ExtractOutcome) (provider : ProviderOutcome)
    (hfile : req.file = some file) (hstored : file.path ∈ files)
    (hpdf : fileExtOf file.originalname ≠ "pdf") (hdocx : fileExtOf file.originalname ≠ "docx") :
    (Server.RoastResume.handler req files extractor provider).1 =
      Result.mk 400 (errorBody "Unsupported file format") [] := by
  by_cases hpath : file.path = ""
  · have hempty : "" ∈ files := hpath ▸ hstored
    simp [Server.RoastResume.handler, Server.RoastResume.tryCatch, hfile, hpdf, hdocx,
      unlinkSync, falsy, hpath, hempty]
  · simp [Server.RoastResume.handler, Server.RoastResume.tryCatch, hfile, hpdf, hdocx,
      unlinkSync, hstored, falsy, hpath]

/-! ## Normalisation of the provider content -/

/-- C1. For both subject kinds, when the provider message content `s` is a
string that `JSON.parse` rejects, the handler answers 200 with exactly the
fallback verdict: the title of the subject kind, `roast` equal to `s`, rating
`"N/A"`, the three fixed key issues and the three fixed action items of the
kind. -/
theorem fallback_on_unparseable_content (data : Envelope) (s : String)
    (hcontent : readContent data = Except.ok (some s))
    (hparse : JSON.parse s = Except.error JsError.SyntaxError) :
    (∀ (req : ProjectRequest) (body : ProjectBody), req.method = "POST" →
      req.body = some body →
      falsy body.projectDescription = false → falsy body.projectLink = false →
      (ApiRoastProject.handler req (ProviderOutcome.resolved data)).status = 200 ∧
      (ApiRoastProject.handler req (ProviderOutcome.resolved data)).body =
        JsVal.obj [
          ("title", JsVal.str "Project Roast"),
          ("roast", JsVal.str s),
          ("rating", JsVal.str "N/A"),
          ("keyIssues", JsVal.arr [
            JsVal.str "Could not parse structured feedback",
            JsVal.str "Review the full roast for details",
            JsVal.str "Try submitting again for better results"]),
          ("actionItems", JsVal.arr [
            JsVal.str "Consider the points mentioned in the roast",
            JsVal.str "Provide clearer project details",
            JsVal.str "Use the roast feedback to improve your project"])]) ∧
    (∀ (req : ResumeRequest) (file : UploadedFile) (extractedText : String),
      req.method = "POST" → req.file = some file →
      (fileExtOf file.originalname = "pdf" ∨ fileExtOf file.originalname = "docx") →
      (ApiRoastResume.handler req (ExtractOutcome.text extractedText)
        (ProviderOutcome.resolved data)).status = 200 ∧
      (ApiRoastResume.handler req (ExtractOutcome.text extractedText)
        (ProviderOutcome.resolved data)).body =
        JsVal.obj [
          ("title", JsVal.str "Resume Roast"),
          ("roast", JsVal.str s),
          ("rating", JsVal.str "N/A"),
          ("keyIssues", JsVal.arr [
            JsVal.str "Could not parse structured feedback",
            JsVal.str "Review the full roast for details",
            JsVal.str "Try submitting again for better results"]),
          ("actionItems", JsVal.arr [
            JsVal.str "Consider the points mentioned in the roast",
            JsVal.str "Submit a clearer resume format",
            JsVal.str "Use the roast feedback to make improvements"])]) := by
  constructor
  · intro req body hm hb hd hl
    simp [ApiRoastProject.handler, ApiRoastProject.formattedResponse, hm, hb, hd, hl, hcontent,
      hparse, toText, toJs]
  · intro req file extractedText hm hf hext
    rcases hext with h | h <;>
      simp [ApiRoastResume.handler, ApiRoastResume.extract, ApiRoastResume.roast,
        ApiRoastResume.formattedResponse, hm, hf, h, hcontent, hparse, toText, toJs]

/-- Witness of C1 at the content `not json`, for a project request and for a
resume upload `cv.pdf`. -/
theorem fallback_on_unparseable_content_witness :
    readContent (Sample.envelope (some "not json"))
      = Except.ok (some "not json") ∧
    JSON.parse "not json" = Except.error JsError.SyntaxError ∧
    (ApiRoastProject.handler
      Sample.projectRequest
      (ProviderOutcome.resolved
        (Sample.envelope (some "not json")))).status = 200 ∧
    (ApiRoastResume.handler
      Sample.cvRequest
      (ExtractOutcome.text "Ten years of Excel")
      (ProviderOutcome.resolved
        (Sample.envelope (some "not json")))).status = 200 :=
  ⟨rfl, rfl,
    ((fallback_on_unparseable_content
      (Sample.envelope (some "not json")) "not json"
      rfl rfl).1
      Sample.projectRequest Sample.projectBody
      rfl rfl rfl rfl).1,
    ((fallback_on_unparseable_content
      (Sample.envelope (some "not json")) "not json"
      rfl rfl).2
      Sample.cvRequest
      Sample.cvPdf "Ten years of Excel"
      rfl rfl (Or.inl rfl)).1⟩

/-- C2. For both subject kinds, when the provider message content `s` parses to
a JSON object `o`, the handler answers 200 with the object `o` after the
assignment of `title`: its `title` is the constant of the subject kind, also
when `o` has a `title` of its own, and `roast`, `rating`, `keyIssues`,
`actionItems` and every other key read as they do in `o`. -/
theorem parsed_object_passes_through (data : Envelope) (s : String)
    (o : List (String × JsVal))
    (hcontent : readContent data = Except.ok (some s))
    (hparse : JSON.parse s = Except.ok (JsVal.obj o)) :
    (∀ (req : ProjectRequest) (body : ProjectBody), req.method = "POST" →
      req.body = some body →
      falsy body.projectDescription = false → falsy body.projectLink = false →
      (ApiRoastProject.handler req (ProviderOutcome.resolved data)).status = 200 ∧
      (ApiRoastProject.handler req (ProviderOutcome.resolved data)).body =
        JsVal.obj (JsVal.assign "title" (JsVal.str "Project Roast") o) ∧
      (ApiRoastProject.handler req (ProviderOutcome.resolved data)).body.get "title" =
        JsVal.str "Project Roast" ∧
      (ApiRoastProject.handler req (ProviderOutcome.resolved data)).body.get "roast" =
        (JsVal.obj o).get "roast" ∧
      (ApiRoastProject.handler req (ProviderOutcome.resolved data)).body.get "rating" =
        (JsVal.obj o).get "rating" ∧
      (ApiRoastProject.handler req (ProviderOutcome.resolved data)).body.get "keyIssues" =
        (JsVal.obj o).get "keyIssues" ∧
      (ApiRoastProject.handler req (ProviderOutcome.resolved data)).body.get "actionItems" =
        (JsVal.obj o).get "actionItems" ∧
      ∀ k : String, k ≠ "title" →
        (ApiRoastProject.handler req (ProviderOutcome.resolved data)).body.get k =
          (JsVal.obj o).get k) ∧
    (∀ (req : ResumeRequest) (file : UploadedFile) (extractedText : String),
      req.method = "POST" → req.file = some file →
      (fileExtOf file.originalname = "pdf" ∨ fileExtOf file.originalname = "docx") →
      (ApiRoastResume.handler req (ExtractOutcome.text extractedText)
        (ProviderOutcome.resolved data)).status = 200 ∧
      (ApiRoastResume.handler req (ExtractOutcome.text extractedText)
        (ProviderOutcome.resolved data)).body =
        JsVal.obj (JsVal.assign "title" (JsVal.str "Resume Roast") o) ∧
      (ApiRoastResume.handler req (ExtractOutcome.text extractedText)
        (ProviderOutcome.resolved data)).body.get "title" = JsVal.str "Resume Roast" ∧
      (ApiRoastResume.handler req (ExtractOutcome.text extractedText)
        (ProviderOutcome.resolved data)).body.get "roast" = (JsVal.obj o).get "roast" ∧
      (ApiRoastResume.handler req (ExtractOutcome.text extractedText)
        (ProviderOutcome.resolved data)).body.get "rating" = (JsVal.obj o).get "rating" ∧
      (ApiRoastResume.handler req (ExtractOutcome.text extractedText)
        (ProviderOutcome.resolved data)).body.get "keyIssues" =
        (JsVal.obj o).get "keyIssues" ∧
      (ApiRoastResume.handler req (ExtractOutcome.text extractedText)
        (ProviderOutcome.resolved data)).body.get "actionItems" =
        (JsVal.obj o).get "actionItems" ∧
      ∀ k : String, k ≠ "title" →
        (ApiRoastResume.handler req (ExtractOutcome.text extractedText)
          (ProviderOutcome.resolved data)).body.get k = (JsVal.obj o).get k) := by
  constructor
  · intro req body hm hb hd hl
    have hbody : (ApiRoastProject.handler req (ProviderOutcome.resolved data)) =
        Result.mk 200 (JsVal.obj (JsVal.assign "title" (JsVal.str "Project Roast") o))
          [Call.provider (ApiRoastProject.systemPrompt body.roastLevel)
            (ApiRoastProject.userPrompt body.projectDescription body.projectLink)] := by
      simp [ApiRoastProject.handler, ApiRoastProject.formattedResponse, hm, hb, hd, hl, hcontent,
        hparse, toText, assignTitle]
    rw [hbody]
    refine ⟨rfl, rfl, ?_, ?_, ?_, ?_, ?_, ?_⟩
    · exact lookup_assign_same _ _ _
    · exact lookup_assign_other _ _ _ _ (by decide)
    · exact lookup_assign_other _ _ _ _ (by decide)
    · exact lookup_assign_other _ _ _ _ (by decide)
    · exact lookup_assign_other _ _ _ _ (by decide)
    · intro k hk
      exact lookup_assign_other _ _ _ _ hk
  · intro req file extractedText hm hf hext
    have hbody : (ApiRoastResume.handler req (ExtractOutcome.text extractedText)
        (ProviderOutcome.resolved data)) =
        Result.mk 200 (JsVal.obj (JsVal.assign "title" (JsVal.str "Resume Roast") o))
          [Call.extract (fileExtOf file.originalname),
            Call.provider (ApiRoastResume.systemPrompt req.roastLevel)
              (ApiRoastResume.userPrompt extractedText)] := by
      rcases hext with h | h <;>
        simp [ApiRoastResume.handler, ApiRoastResume.extract, ApiRoastResume.roast,
          ApiRoastResume.formattedResponse, hm, hf, h, hcontent, hparse, toText, assignTitle]
    rw [hbody]
    refine ⟨rfl, rfl, ?_, ?_, ?_, ?_, ?_, ?_⟩
    · exact lookup_assign_same _ _ _
    · exact lookup_assign_other _ _ _ _ (by decide)
    · exact lookup_assign_other _ _ _ _ (by decide)
    · exact lookup_assign_other _ _ _ _ (by decide)
    · exact lookup_assign_other _ _ _ _ (by decide)
    · intro k hk
      exact lookup_assign_other _ _ _ _ hk

/-- Witness of C2 at a content whose object carries a `title` of its own. -/
theorem parsed_object_passes_through_witness :
    JSON.parse Sample.titledVerdict
      = Except.ok (JsVal.obj [("title", JsVal.str "Best idea ever"), ("roast", JsVal.str "x"),
        ("rating", JsVal.str "5"),
        ("keyIssues", JsVal.arr [JsVal.str "a", JsVal.str "b", JsVal.str "c"]),
        ("actionItems", JsVal.arr [JsVal.str "d", JsVal.str "e", JsVal.str "f"])]) ∧
    (ApiRoastProject.handler Sample.projectRequest
      (ProviderOutcome.resolved (Sample.envelope (some Sample.titledVerdict)))).body.get "title" =
        JsVal.str "Project Roast" ∧
    (ApiRoastProject.handler Sample.projectRequest
      (ProviderOutcome.resolved (Sample.envelope (some Sample.titledVerdict)))).body.get "roast" =
        JsVal.str "x" ∧
    (ApiRoastResume.handler Sample.cvRequest
        (ExtractOutcome.text "Ten years of Excel")
      (ProviderOutcome.resolved (Sample.envelope (some Sample.titledVerdict)))).body.get "title" =
        JsVal.str "Resume Roast" :=
  ⟨rfl,
    ((parsed_object_passes_through (Sample.envelope (some Sample.titledVerdict))
        Sample.titledVerdict
      [("title", JsVal.str "Best idea ever"), ("roast", JsVal.str "x"),
        ("rating", JsVal.str "5"),
        ("keyIssues", JsVal.arr [JsVal.str "a", JsVal.str "b", JsVal.str "c"]),
        ("actionItems", JsVal.arr [JsVal.str "d", JsVal.str "e", JsVal.str "f"])] rfl rfl).1
      Sample.projectRequest Sample.projectBody
          rfl rfl rfl rfl).2.2.1,
    ((parsed_object_passes_through (Sample.envelope (some Sample.titledVerdict))
        Sample.titledVerdict
      [("title", JsVal.str "Best idea ever"), ("roast", JsVal.str "x"),
        ("rating", JsVal.str "5"),
        ("keyIssues", JsVal.arr [JsVal.str "a", JsVal.str "b", JsVal.str "c"]),
        ("actionItems", JsVal.arr [JsVal.str "d", JsVal.str "e", JsVal.str "f"])] rfl rfl).1
      Sample.projectRequest Sample.projectBody
          rfl rfl rfl rfl).2.2.2.1,
    ((parsed_object_passes_through (Sample.envelope (some Sample.titledVerdict))
        Sample.titledVerdict
      [("title", JsVal.str "Best idea ever"), ("roast", JsVal.str "x"),
        ("rating", JsVal.str "5"),
        ("keyIssues", JsVal.arr [JsVal.str "a", JsVal.str "b", JsVal.str "c"]),
        ("actionItems", JsVal.arr [JsVal.str "d", JsVal.str "e", JsVal.str "f"])] rfl rfl).2
      Sample.cvRequest
          Sample.cvPdf "Ten years of Excel" rfl rfl (Or.inl rfl)).2.2.1⟩

/-- C3, as stated, fails: the content `[]` is valid JSON and not a JSON object,
and both handlers answer 200 with the empty array itself, which has no
`rating`, not with the fallback verdict. -/
theorem array_content_is_not_fallback :
    JSON.parse "[]" = Except.ok (JsVal.arr []) ∧
    (ApiRoastProject.handler Sample.projectRequest
      (ProviderOutcome.resolved (Sample.envelope (some "[]")))).status = 200 ∧
    (ApiRoastProject.handler Sample.projectRequest
      (ProviderOutcome.resolved (Sample.envelope (some "[]")))).body = JsVal.arr [] ∧
    (ApiRoastProject.handler Sample.projectRequest
      (ProviderOutcome.resolved (Sample.envelope (some "[]")))).body.get "rating" =
        JsVal.undefined ∧
    (ApiRoastResume.handler Sample.cvRequest
        (ExtractOutcome.text "Ten years of Excel")
      (ProviderOutcome.resolved (Sample.envelope (some "[]")))).body = JsVal.arr [] :=
  ⟨rfl, rfl, rfl, rfl, rfl⟩

/-- C3 as amended. For both subject kinds, when the provider message content
`s` parses to a JSON value `v` that is not an object, the handler answers 200;
for `null` the body is the fallback verdict with `roast` equal to `s`, and for
every other such value (a number, a string, a boolean, an array) the body is `v`
itself. -/
theorem non_object_json_content (data : Envelope) (s : String) (v : JsVal)
    (hcontent : readContent data = Except.ok (some s))
    (hparse : JSON.parse s = Except.ok v)
    (hv : ∀ o, v ≠ JsVal.obj o) :
    (∀ (req : ProjectRequest) (body : ProjectBody), req.method = "POST" →
      req.body = some body →
      falsy body.projectDescription = false → falsy body.projectLink = false →
      (ApiRoastProject.handler req (ProviderOutcome.resolved data)).status = 200 ∧
      (v = JsVal.null →
        (ApiRoastProject.handler req (ProviderOutcome.resolved data)).body =
        JsVal.obj [
          ("title", JsVal.str "Project Roast"),
          ("roast", JsVal.str s),
          ("rating", JsVal.str "N/A"),
          ("keyIssues", JsVal.arr [
            JsVal.str "Could not parse structured feedback",
            JsVal.str "Review the full roast for details",
            JsVal.str "Try submitting again for better results"]),
          ("actionItems", JsVal.arr [
            JsVal.str "Consider the points mentioned in the roast",
            JsVal.str "Provide clearer project details",
            JsVal.str "Use the roast feedback to improve your project"])]) ∧
      (v ≠ JsVal.null →
        (ApiRoastProject.handler req (ProviderOutcome.resolved data)).body = v)) ∧
    (∀ (req : ResumeRequest) (file : UploadedFile) (extractedText : String),
      req.method = "POST" → req.file = some file →
      (fileExtOf file.originalname = "pdf" ∨ fileExtOf file.originalname = "docx") →
      (ApiRoastResume.handler req (ExtractOutcome.text extractedText)
        (ProviderOutcome.resolved data)).status = 200 ∧
      (v = JsVal.null →
        (ApiRoastResume.handler req (ExtractOutcome.text extractedText)
          (ProviderOutcome.resolved data)).body =
        JsVal.obj [
          ("title", JsVal.str "Resume Roast"),
          ("roast", JsVal.str s),
          ("rating", JsVal.str "N/A"),
          ("keyIssues", JsVal.arr [
            JsVal.str "Could not parse structured feedback",
            JsVal.str "Review the full roast for details",
            JsVal.str "Try submitting again for better results"]),
          ("actionItems", JsVal.arr [
            JsVal.str "Consider the points mentioned in the roast",
            JsVal.str "Submit a clearer resume format",
            JsVal.str "Use the roast feedback to make improvements"])]) ∧
      (v ≠ JsVal.null →
        (ApiRoastResume.handler req (ExtractOutcome.text extractedText)
          (ProviderOutcome.resolved data)).body = v)) := by
  have hdef := JSON.parse_defined s v hparse
  constructor
  · intro req body hm hb hd hl
    cases v with
    | undefined => exact absurd rfl hdef
    | obj o => exact absurd rfl (hv o)
    | _ =>
      simp [ApiRoastProject.handler, ApiRoastProject.formattedResponse, hm, hb, hd, hl, hcontent,
        hparse, toText, toJs, assignTitle]
  · intro req file extractedText hm hf hext
    cases v with
    | undefined => exact absurd rfl hdef
    | obj o => exact absurd rfl (hv o)
    | _ =>
      rcases hext with he | he <;>
        simp [ApiRoastResume.handler, ApiRoastResume.extract, ApiRoastResume.roast,
          ApiRoastResume.formattedResponse, hm, hf, he, hcontent, hparse, toText, toJs,
          assignTitle]

/-- Witness of amended C3 at the content `42`, which both handlers hand back
as the number. -/
theorem non_object_json_content_witness :
    JSON.parse "42" = Except.ok (JsVal.num "42") ∧
    (ApiRoastProject.handler Sample.projectRequest
      (ProviderOutcome.resolved (Sample.envelope (some "42")))).status = 200 ∧
    (ApiRoastProject.handler Sample.projectRequest
      (ProviderOutcome.resolved (Sample.envelope (some "42")))).body = JsVal.num "42" ∧
    (ApiRoastResume.handler Sample.cvRequest
        (ExtractOutcome.text "Ten years of Excel")
      (ProviderOutcome.resolved (Sample.envelope (some "42")))).body = JsVal.num "42" :=
  ⟨rfl,
    ((non_object_json_content (Sample.envelope (some "42"))
        "42" (JsVal.num "42") rfl rfl
      (fun _ h => JsVal.noConfusion h)).1 Sample.projectRequest Sample.projectBody
          rfl rfl rfl rfl).1,
    ((non_object_json_content (Sample.envelope (some "42"))
        "42" (JsVal.num "42") rfl rfl
      (fun _ h => JsVal.noConfusion h)).1 Sample.projectRequest Sample.projectBody
          rfl rfl rfl rfl).2.2 (by simp),
    ((non_object_json_content (Sample.envelope (some "42"))
        "42" (JsVal.num "42") rfl rfl
      (fun _ h => JsVal.noConfusion h)).2 Sample.cvRequest
          Sample.cvPdf "Ten years of Excel"
      rfl rfl (Or.inl rfl)).2.2 (by simp)⟩

/-! ## The schema of a 200 body -/

/-- C4, as stated, fails: on the content `\x7b\x7d`, an empty JSON object, the
project handler and the Express resume route answer 200 with a body that has
only `title`: no `roast`, no `rating`, no `keyIssues`, no `actionItems`. -/
theorem empty_object_body_is_no_verdict :
    JSON.parse "\x7b\x7d" = Except.ok (JsVal.obj []) ∧
    (ApiRoastProject.handler Sample.projectRequest
      (ProviderOutcome.resolved (Sample.envelope (some "\x7b\x7d")))).status = 200 ∧
    (ApiRoastProject.handler Sample.projectRequest
      (ProviderOutcome.resolved (Sample.envelope (some "\x7b\x7d")))).body
        = JsVal.obj [("title", JsVal.str "Project Roast")] ∧
    isVerdict (ApiRoastProject.handler Sample.projectRequest
      (ProviderOutcome.resolved (Sample.envelope (some "\x7b\x7d")))).body = false ∧
    (Server.RoastResume.handler Sample.cvRequest
        ["uploads/1-cv.pdf"]
      (ExtractOutcome.text "Ten years of Excel")
      (ProviderOutcome.resolved (Sample.envelope (some "\x7b\x7d")))).1.status = 200 ∧
    isVerdict (Server.RoastResume.handler Sample.cvRequest
        ["uploads/1-cv.pdf"]
      (ExtractOutcome.text "Ten years of Excel")
      (ProviderOutcome.resolved (Sample.envelope (some "\x7b\x7d")))).1.body = false :=
  ⟨rfl, rfl, rfl, rfl, rfl, rfl⟩

/-- C4 as amended. For both operations and every string content `s` of the
provider message the answer is 200. Its body is a Verdict of the fixed schema
(title, roast, rating, exactly three key issues, exactly three action items)
whenever `s` is not valid JSON or is the JSON `null`; when `s` parses to an
object, the body is a Verdict exactly when that object itself has `roast`,
`rating` and arrays of exactly three `keyIssues` and three `actionItems`. -/
theorem ok_body_schema (data : Envelope) (s : String)
    (hcontent : readContent data = Except.ok (some s)) :
    (∀ (req : ProjectRequest) (body : ProjectBody), req.method = "POST" →
      req.body = some body →
      falsy body.projectDescription = false → falsy body.projectLink = false →
      (ApiRoastProject.handler req (ProviderOutcome.resolved data)).status = 200 ∧
      ((JSON.parse s = Except.error JsError.SyntaxError ∨ JSON.parse s = Except.ok JsVal.null) →
        isVerdict (ApiRoastProject.handler req (ProviderOutcome.resolved data)).body = true) ∧
      (∀ o, JSON.parse s = Except.ok (JsVal.obj o) →
        isVerdict (ApiRoastProject.handler req (ProviderOutcome.resolved data)).body =
          (hasField "roast" o && hasField "rating" o
            && threeEntries (JsVal.lookup "keyIssues" o)
            && threeEntries (JsVal.lookup "actionItems" o)))) ∧
    (∀ (req : ResumeRequest) (file : UploadedFile) (files : List String)
      (extractedText : String),
      req.file = some file → file.path ∈ files →
      (fileExtOf file.originalname = "pdf" ∨ fileExtOf file.originalname = "docx") →
      (Server.RoastResume.handler req files (ExtractOutcome.text extractedText)
        (ProviderOutcome.resolved data)).1.status = 200 ∧
      ((JSON.parse s = Except.error JsError.SyntaxError ∨ JSON.parse s = Except.ok JsVal.null) →
        isVerdict (Server.RoastResume.handler req files (ExtractOutcome.text extractedText)
          (ProviderOutcome.resolved data)).1.body = true) ∧
      (∀ o, JSON.parse s = Except.ok (JsVal.obj o) →
        isVerdict (Server.RoastResume.handler req files (ExtractOutcome.text extractedText)
          (ProviderOutcome.resolved data)).1.body =
          (hasField "roast" o && hasField "rating" o
            && threeEntries (JsVal.lookup "keyIssues" o)
            && threeEntries (JsVal.lookup "actionItems" o)))) := by
  constructor
  · intro req body hm hb hd hl
    refine ⟨?_, ?_, ?_⟩
    · cases hp : JSON.parse s with
      | error e =>
        simp [ApiRoastProject.handler, ApiRoastProject.formattedResponse, hm, hb, hd, hl,
          hcontent, hp, toText]
      | ok v =>
        cases v <;>
          simp [ApiRoastProject.handler, ApiRoastProject.formattedResponse, hm, hb, hd, hl,
            hcontent, hp, toText, assignTitle]
    · rintro (hp | hp) <;>
        simp [ApiRoastProject.handler, ApiRoastProject.formattedResponse, hm, hb, hd, hl,
          hcontent, hp, toText, toJs, assignTitle] <;> rfl
    · intro o hp
      have hb : (ApiRoastProject.handler req (ProviderOutcome.resolved data)).body =
          JsVal.obj (JsVal.assign "title" (JsVal.str "Project Roast") o) := by
        simp [ApiRoastProject.handler, ApiRoastProject.formattedResponse, hm, hb, hd, hl,
          hcontent, hp, toText, assignTitle]
      rw [hb, isVerdict_assign_title]
  · intro req file files extractedText hf hstored hext
    rw [Server.RoastResume.handler_supported req file files _ _ hf hstored hext]
    refine ⟨?_, ?_, ?_⟩
    · cases hp : JSON.parse s with
      | error e =>
        simp [Server.RoastResume.extract, Server.RoastResume.roast,
          Server.RoastResume.formattedResponse, hcontent, hp, toText]
      | ok v =>
        cases v <;>
          simp [Server.RoastResume.extract, Server.RoastResume.roast,
            Server.RoastResume.formattedResponse, hcontent, hp, toText, assignTitle]
    · rintro (hp | hp) <;>
        simp [Server.RoastResume.extract, Server.RoastResume.roast,
          Server.RoastResume.formattedResponse, hcontent, hp, toText, toJs, assignTitle] <;> rfl
    · intro o hp
      have hb : (Server.RoastResume.extract (fileExtOf file.originalname) req.roastLevel
          (ExtractOutcome.text extractedText) (ProviderOutcome.resolved data)).body =
          JsVal.obj (JsVal.assign "title" (JsVal.str "Resume Roast") o) := by
        simp [Server.RoastResume.extract, Server.RoastResume.roast,
          Server.RoastResume.formattedResponse, hcontent, hp, toText, assignTitle]
      rw [hb, isVerdict_assign_title]

/-- Witness of amended C4 at the content `not json`: the project handler
answers 200 with a body of the Verdict schema. -/
theorem ok_body_schema_witness :
    readContent (Sample.envelope (some "not json"))
        = Except.ok (some "not json") ∧
    (ApiRoastProject.handler Sample.projectRequest
      (ProviderOutcome.resolved (Sample.envelope (some "not json")))).status = 200 ∧
    isVerdict (ApiRoastProject.handler Sample.projectRequest
      (ProviderOutcome.resolved (Sample.envelope (some "not json")))).body = true ∧
    isVerdict (Server.RoastResume.handler Sample.cvRequest
        ["uploads/1-cv.pdf"]
      (ExtractOutcome.text "Ten years of Excel")
      (ProviderOutcome.resolved (Sample.envelope (some "not json")))).1.body = true :=
  ⟨rfl,
    ((ok_body_schema (Sample.envelope (some "not json"))
        "not json" rfl).1 Sample.projectRequest Sample.projectBody
        rfl rfl rfl rfl).1,
    ((ok_body_schema (Sample.envelope (some "not json"))
        "not json" rfl).1 Sample.projectRequest Sample.projectBody
        rfl rfl rfl rfl).2.1
      (Or.inl rfl),
    ((ok_body_schema (Sample.envelope (some "not json"))
        "not json" rfl).2 Sample.cvRequest
        Sample.cvPdf
      ["uploads/1-cv.pdf"] "Ten years of Excel" rfl (by decide) (Or.inl rfl)).2.1
      (Or.inl rfl)⟩

/-! ## Provider failures -/

/-- C5, as stated, fails: when `choices[0].message` is there and its `content`
is absent, both handlers answer 200, with a fallback body whose `roast` is
`undefined`. -/
theorem absent_content_answers_200 :
    (ApiRoastProject.handler Sample.projectRequest
      (ProviderOutcome.resolved (Sample.envelope none))).status = 200 ∧
    (ApiRoastProject.handler Sample.projectRequest
      (ProviderOutcome.resolved (Sample.envelope none))).body.get "rating" = JsVal.str "N/A" ∧
    (ApiRoastProject.handler Sample.projectRequest
      (ProviderOutcome.resolved (Sample.envelope none))).body.get "roast" = JsVal.undefined ∧
    (ApiRoastResume.handler Sample.cvRequest
        (ExtractOutcome.text "Ten years of Excel")
      (ProviderOutcome.resolved (Sample.envelope none))).status = 200 :=
  ⟨rfl, rfl, rfl, rfl⟩

/-- C5 as amended. For both operations, when the provider call rejects
(transport failure or a status outside 2xx), or the envelope has no `choices`,
an empty `choices`, or no `choices[0].message`, the handler answers 500 with the
fixed error message of the operation. When only `message.content` is absent it
answers 200 with the fallback body whose `roast` is `undefined`. -/
theorem provider_failure_answers_500 (provider : ProviderOutcome) :
    ((provider = ProviderOutcome.rejected ∨
      ∃ data, provider = ProviderOutcome.resolved data ∧
        (data.choices = none ∨ data.choices = some [] ∨
          ∃ rest, data.choices = some (Choice.mk none :: rest))) →
      (∀ (req : ProjectRequest) (body : ProjectBody), req.method = "POST" →
        req.body = some body →
        falsy body.projectDescription = false → falsy body.projectLink = false →
        (ApiRoastProject.handler req provider).status = 500 ∧
        (ApiRoastProject.handler req provider).body =
          JsVal.obj [("error", JsVal.str "An error occurred while roasting the project.")]) ∧
      (∀ (req : ResumeRequest) (file : UploadedFile) (extractedText : String),
        req.method = "POST" → req.file = some file →
        (fileExtOf file.originalname = "pdf" ∨ fileExtOf file.originalname = "docx") →
        (ApiRoastResume.handler req (ExtractOutcome.text extractedText) provider).status
          = 500 ∧
        (ApiRoastResume.handler req (ExtractOutcome.text extractedText) provider).body =
          JsVal.obj [("error", JsVal.str "An error occurred while processing the resume.")])) ∧
    ((∃ rest, provider = ProviderOutcome.resolved
        (Envelope.mk (some (Choice.mk (some (Message.mk none)) :: rest)))) →
      (∀ (req : ProjectRequest) (body : ProjectBody), req.method = "POST" →
        req.body = some body →
        falsy body.projectDescription = false → falsy body.projectLink = false →
        (ApiRoastProject.handler req provider).status = 200 ∧
        (ApiRoastProject.handler req provider).body =
        JsVal.obj [
          ("title", JsVal.str "Project Roast"),
          ("roast", JsVal.undefined),
          ("rating", JsVal.str "N/A"),
          ("keyIssues", JsVal.arr [
            JsVal.str "Could not parse structured feedback",
            JsVal.str "Review the full roast for details",
            JsVal.str "Try submitting again for better results"]),
          ("actionItems", JsVal.arr [
            JsVal.str "Consider the points mentioned in the roast",
            JsVal.str "Provide clearer project details",
            JsVal.str "Use the roast feedback to improve your project"])]) ∧
      (∀ (req : ResumeRequest) (file : UploadedFile) (extractedText : String),
        req.method = "POST" → req.file = some file →
        (fileExtOf file.originalname = "pdf" ∨ fileExtOf file.originalname = "docx") →
        (ApiRoastResume.handler req (ExtractOutcome.text extractedText) provider).status
          = 200 ∧
        (ApiRoastResume.handler req (ExtractOutcome.text extractedText) provider).body =
        JsVal.obj [
          ("title", JsVal.str "Resume Roast"),
          ("roast", JsVal.undefined),
          ("rating", JsVal.str "N/A"),
          ("keyIssues", JsVal.arr [
            JsVal.str "Could not parse structured feedback",
            JsVal.str "Review the full roast for details",
            JsVal.str "Try submitting again for better results"]),
          ("actionItems", JsVal.arr [
            JsVal.str "Consider the points mentioned in the roast",
            JsVal.str "Submit a clearer resume format",
            JsVal.str "Use the roast feedback to make improvements"])])) := by
  have hundefined : JSON.parse "undefined" = Except.error JsError.SyntaxError := rfl
  constructor
  · intro hfail
    have hread : provider = ProviderOutcome.rejected ∨
        ∃ data, provider = ProviderOutcome.resolved data ∧
          readContent data = Except.error JsError.TypeError := by
      rcases hfail with h | ⟨data, h, hc⟩
      · exact Or.inl h
      · refine Or.inr ⟨data, h, ?_⟩
        rcases hc with hc | hc | ⟨rest, hc⟩ <;> simp [readContent, hc]
    constructor
    · intro req body hm hb hd hl
      rcases hread with h | ⟨data, h, hc⟩ <;> subst h <;>
        simp [ApiRoastProject.handler, ApiRoastProject.formattedResponse, hm, hb, hd, hl,
          errorBody, *]
    · intro req file extractedText hm hf hext
      rcases hext with he | he <;>
        rcases hread with h | ⟨data, h, hc⟩ <;> subst h <;>
        simp [ApiRoastResume.handler, ApiRoastResume.extract, ApiRoastResume.roast,
          ApiRoastResume.formattedResponse, hm, hf, he, errorBody, *]
  · rintro ⟨rest, h⟩
    subst h
    constructor
    · intro req body hm hb hd hl
      simp [ApiRoastProject.handler, ApiRoastProject.formattedResponse, hm, hb, hd, hl,
        readContent, toText, toJs, hundefined]
    · intro req file extractedText hm hf hext
      rcases hext with he | he <;>
        simp [ApiRoastResume.handler, ApiRoastResume.extract, ApiRoastResume.roast,
          ApiRoastResume.formattedResponse, hm, hf, he, readContent, toText, toJs,
          hundefined]

/-- Witness of amended C5: a rejected provider call, and an envelope without
`choices`, are answered 500 by the project handler. -/
theorem provider_failure_answers_500_witness :
    (ApiRoastProject.handler Sample.projectRequest
        ProviderOutcome.rejected).status = 500 ∧
    (ApiRoastProject.handler Sample.projectRequest
      (ProviderOutcome.resolved (Envelope.mk none))).status = 500 ∧
    (ApiRoastResume.handler Sample.cvRequest
        (ExtractOutcome.text "Ten years of Excel")
      (ProviderOutcome.resolved (Envelope.mk (some [])))).status = 500 :=
  ⟨(((provider_failure_answers_500 ProviderOutcome.rejected).1 (Or.inl rfl)).1
      Sample.projectRequest Sample.projectBody
          rfl rfl rfl rfl).1,
    (((provider_failure_answers_500 (ProviderOutcome.resolved (Envelope.mk none))).1
      (Or.inr ⟨Envelope.mk none, rfl, Or.inl rfl⟩)).1 Sample.projectRequest Sample.projectBody
          rfl rfl rfl rfl).1,
    (((provider_failure_answers_500 (ProviderOutcome.resolved (Envelope.mk (some [])))).1
      (Or.inr ⟨Envelope.mk (some []), rfl, Or.inr (Or.inl rfl)⟩)).2 Sample.cvRequest
          Sample.cvPdf
      "Ten years of Excel" rfl rfl (Or.inl rfl)).1⟩

/-! ## Validation of a project request -/

/-- C6, as stated, fails: a POST submit-project request that carries no body has
neither `projectDescription` nor `projectLink`, and both project handlers answer
it 500 with the generic message, not 400: destructuring the absent `req.body`
throws inside the `try`. No provider call is made. -/
theorem absent_body_answers_500 :
    (ApiRoastProject.handler Sample.projectWithoutBody
      (ProviderOutcome.resolved (Sample.envelope (some Sample.verdict)))).status = 500 ∧
    (ApiRoastProject.handler Sample.projectWithoutBody
      (ProviderOutcome.resolved (Sample.envelope (some Sample.verdict)))).body =
        JsVal.obj [("error", JsVal.str "An error occurred while roasting the project.")] ∧
    (ApiRoastProject.handler Sample.projectWithoutBody
      (ProviderOutcome.resolved (Sample.envelope (some Sample.verdict)))).providerCalls = 0 ∧
    (Server.RoastProject.handler none
      (ProviderOutcome.resolved (Sample.envelope (some Sample.verdict)))).status = 500 :=
  ⟨rfl, rfl, rfl, rfl⟩

/-- C6 as amended. For a POST submit-project request whose `req.body` is present,
the answer is 400 with the message
`Both project description and project link are required.` and without a provider
call exactly when `projectDescription` or `projectLink` is absent or empty; when
both are non-empty exactly one provider call is made. When `req.body` itself is
absent the answer is 500 with the generic message and no provider call is made.
The same holds for the Express route. -/
theorem project_validation (req : ProjectRequest) (provider : ProviderOutcome)
    (hmethod : req.method = "POST") :
    (req.body = none →
      (ApiRoastProject.handler req provider).status = 500 ∧
      (ApiRoastProject.handler req provider).body =
        JsVal.obj [("error", JsVal.str "An error occurred while roasting the project.")] ∧
      (ApiRoastProject.handler req provider).providerCalls = 0 ∧
      (Server.RoastProject.handler req.body provider).status = 500 ∧
      (Server.RoastProject.handler req.body provider).body =
        JsVal.obj [("error", JsVal.str "An error occurred while roasting the project.")] ∧
      (Server.RoastProject.handler req.body provider).providerCalls = 0) ∧
    (∀ body : ProjectBody, req.body = some body →
      (((ApiRoastProject.handler req provider).status = 400 ∧
          (ApiRoastProject.handler req provider).body =
            JsVal.obj [("error",
              JsVal.str "Both project description and project link are required.")] ∧
          (ApiRoastProject.handler req provider).providerCalls = 0) ↔
        (body.projectDescription = none ∨ body.projectDescription = some "" ∨
          body.projectLink = none ∨ body.projectLink = some "")) ∧
      (¬ (body.projectDescription = none ∨ body.projectDescription = some "" ∨
          body.projectLink = none ∨ body.projectLink = some "") →
        (ApiRoastProject.handler req provider).providerCalls = 1) ∧
      (((Server.RoastProject.handler req.body provider).status = 400 ∧
          (Server.RoastProject.handler req.body provider).body =
            JsVal.obj [("error",
              JsVal.str "Both project description and project link are required.")] ∧
          (Server.RoastProject.handler req.body provider).providerCalls = 0) ↔
        (body.projectDescription = none ∨ body.projectDescription = some "" ∨
          body.projectLink = none ∨ body.projectLink = some "")) ∧
      (¬ (body.projectDescription = none ∨ body.projectDescription = some "" ∨
          body.projectLink = none ∨ body.projectLink = some "") →
        (Server.RoastProject.handler req.body provider).providerCalls = 1)) := by
  obtain ⟨method, reqBody⟩ := req
  simp only at hmethod
  subst hmethod
  constructor
  · intro hnone
    simp only at hnone
    subst hnone
    simp [ApiRoastProject.handler, Server.RoastProject.handler, errorBody,
      Result.providerCalls]
  · intro body hsome
    simp only at hsome
    subst hsome
    obtain ⟨description, link, level⟩ := body
    cases description with
    | none => simp [ApiRoastProject.handler, Server.RoastProject.handler, falsy, errorBody,
        Result.providerCalls]
    | some d =>
      cases link with
      | none => simp [ApiRoastProject.handler, Server.RoastProject.handler, falsy, errorBody,
          Result.providerCalls]
      | some l =>
        by_cases hd : d = ""
        · simp [ApiRoastProject.handler, Server.RoastProject.handler, falsy, errorBody,
            Result.providerCalls, hd]
        · by_cases hl : l = ""
          · simp [ApiRoastProject.handler, Server.RoastProject.handler, falsy, errorBody,
              Result.providerCalls, hl]
          · cases provider with
            | rejected =>
              simp [ApiRoastProject.handler, Server.RoastProject.handler, falsy, errorBody,
                Result.providerCalls, Call.isProvider, hd, hl]
            | resolved data =>
              cases h1 : ApiRoastProject.formattedResponse data <;>
                cases h2 : Server.RoastProject.formattedResponse data <;>
                simp [ApiRoastProject.handler, Server.RoastProject.handler, falsy,
                  errorBody, Result.providerCalls, Call.isProvider, hd, hl, h1, h2]

/-- Witness of amended C6: a request without `projectLink` is answered 400
without a provider call; a complete request makes one provider call; a request
without a body is answered 500. -/
theorem project_validation_witness :
    (ApiRoastProject.handler Sample.projectWithoutLink ProviderOutcome.rejected).status
      = 400 ∧
    (ApiRoastProject.handler Sample.projectWithoutLink
      ProviderOutcome.rejected).providerCalls = 0 ∧
    (ApiRoastProject.handler Sample.projectRequest
      (ProviderOutcome.resolved (Sample.envelope (some Sample.verdict)))).providerCalls = 1 ∧
    (ApiRoastProject.handler Sample.projectWithoutBody ProviderOutcome.rejected).status
      = 500 :=
  ⟨(((project_validation Sample.projectWithoutLink ProviderOutcome.rejected rfl).2
      Sample.bodyWithoutLink rfl).1.2 (Or.inr (Or.inr (Or.inl rfl)))).1,
    (((project_validation Sample.projectWithoutLink ProviderOutcome.rejected rfl).2
      Sample.bodyWithoutLink rfl).1.2 (Or.inr (Or.inr (Or.inl rfl)))).2.2,
    ((project_validation Sample.projectRequest
      (ProviderOutcome.resolved (Sample.envelope (some Sample.verdict))) rfl).2
      Sample.projectBody rfl).2.1 (by simp [Sample.projectBody]),
    ((project_validation Sample.projectWithoutBody ProviderOutcome.rejected rfl).1 rfl).1⟩

/-! ## Format dispatch of a resume upload -/

/-- C7 at the failing input: an upload whose filename is `pdf`, with no dot and
so no extension, gets the format tag `pdf`; both resume handlers call the
extractor and the provider and answer 200 instead of 400. -/
theorem dotless_pdf_filename_is_extracted :
    fileExtOf "pdf" = "pdf" ∧
    (ApiRoastResume.handler
      Sample.dotlessRequest
      (ExtractOutcome.text "Ten years of Excel")
      (ProviderOutcome.resolved (Sample.envelope (some Sample.verdict)))).status = 200 ∧
    (ApiRoastResume.handler
      Sample.dotlessRequest
      (ExtractOutcome.text "Ten years of Excel")
      (ProviderOutcome.resolved (Sample.envelope (some Sample.verdict)))).calls =
        [Call.extract "pdf",
          Call.provider "You are a professional resume reviewer."
            (ApiRoastResume.userPrompt "Ten years of Excel")] ∧
    (Server.RoastResume.handler
      Sample.dotlessRequest
      ["uploads/1-pdf"] (ExtractOutcome.text "Ten years of Excel")
      (ProviderOutcome.resolved (Sample.envelope (some Sample.verdict)))).1.status = 200 :=
  ⟨rfl, rfl, rfl, rfl⟩

/-- Where the format dispatch rejects: an upload whose computed tag
`fileExtOf originalname` is neither `pdf` nor `docx` is answered 400 with
`Unsupported file format`, without an extractor or provider call, by both resume
handlers. -/
theorem unsupported_format_answers_400 (req : ResumeRequest) (file : UploadedFile)
    (files : List String) (extractor : ExtractOutcome) (provider : ProviderOutcome)
    (hmethod : req.method = "POST") (hfile : req.file = some file)
    (hstored : file.path ∈ files)
    (hpdf : fileExtOf file.originalname ≠ "pdf")
    (hdocx : fileExtOf file.originalname ≠ "docx") :
    ApiRoastResume.handler req extractor provider =
      Result.mk 400 (JsVal.obj [("error", JsVal.str "Unsupported file format")]) [] ∧
    (Server.RoastResume.handler req files extractor provider).1 =
      Result.mk 400 (JsVal.obj [("error", JsVal.str "Unsupported file format")]) [] := by
  constructor
  · simp [ApiRoastResume.handler, hmethod, hfile, hpdf, hdocx, errorBody]
  · rw [Server.RoastResume.handler_unsupported req file files _ _ hfile hstored hpdf hdocx]
    rfl

/-- The rejection of an unsupported format at the upload `notes.txt`. -/
theorem unsupported_format_answers_400_witness :
    fileExtOf "notes.txt" = "txt" ∧
    (ApiRoastResume.handler Sample.notesRequest
        (ExtractOutcome.text "Ten years of Excel")
      ProviderOutcome.rejected).status = 400 ∧
    (ApiRoastResume.handler Sample.notesRequest
        (ExtractOutcome.text "Ten years of Excel")
      ProviderOutcome.rejected).calls = [] ∧
    (Server.RoastResume.handler Sample.notesRequest
        ["uploads/1-notes.txt"]
      (ExtractOutcome.text "Ten years of Excel") ProviderOutcome.rejected).1.status = 400 :=
  ⟨rfl,
    congrArg Result.status (unsupported_format_answers_400 Sample.notesRequest
        Sample.notesTxt
      ["uploads/1-notes.txt"] (ExtractOutcome.text "Ten years of Excel")
      ProviderOutcome.rejected rfl rfl (by decide) (by decide) (by decide)).1,
    congrArg Result.calls (unsupported_format_answers_400 Sample.notesRequest
        Sample.notesTxt
      ["uploads/1-notes.txt"] (ExtractOutcome.text "Ten years of Excel")
      ProviderOutcome.rejected rfl rfl (by decide) (by decide) (by decide)).1,
    congrArg Result.status (unsupported_format_answers_400 Sample.notesRequest
        Sample.notesTxt
      ["uploads/1-notes.txt"] (ExtractOutcome.text "Ten years of Excel")
      ProviderOutcome.rejected rfl rfl (by decide) (by decide) (by decide)).2⟩

/-! ## Prompt construction -/

/-- C8. For both subject kinds the system instruction sent to the provider is
determined by the subject kind and `roastLevel` alone: `spicy` selects the
brutally honest instruction, `extra_burn` the savage, maximum intensity one, and
every other value, also an absent one, the mild one. The user instruction sent
is built from the subject payload alone and does not depend on `roastLevel`. -/
theorem system_instruction_by_roast_level :
    (∀ (req : ProjectRequest) (body : ProjectBody) (provider : ProviderOutcome),
      req.method = "POST" → req.body = some body →
      falsy body.projectDescription = false → falsy body.projectLink = false →
      (ApiRoastProject.handler req provider).calls =
        [Call.provider (ApiRoastProject.systemPrompt body.roastLevel)
          (ApiRoastProject.userPrompt body.projectDescription body.projectLink)]) ∧
    ApiRoastProject.systemPrompt (some "spicy") =
      "You are a brutally honest expert at roasting project ideas." ∧
    ApiRoastProject.systemPrompt (some "extra_burn") =
      "You are a savage expert at roasting project ideas with maximum intensity." ∧
    (∀ roastLevel : Option String, roastLevel ≠ some "spicy" →
      roastLevel ≠ some "extra_burn" →
      ApiRoastProject.systemPrompt roastLevel =
        "You are an expert at reviewing and roasting project ideas.") ∧
    (∀ (req : ResumeRequest) (file : UploadedFile) (extractedText : String)
      (provider : ProviderOutcome), req.method = "POST" → req.file = some file →
      (fileExtOf file.originalname = "pdf" ∨ fileExtOf file.originalname = "docx") →
      (ApiRoastResume.handler req (ExtractOutcome.text extractedText) provider).calls =
        [Call.extract (fileExtOf file.originalname),
          Call.provider (ApiRoastResume.systemPrompt req.roastLevel)
            (ApiRoastResume.userPrompt extractedText)]) ∧
    ApiRoastResume.systemPrompt (some "spicy") =
      "You are a brutally honest resume reviewer." ∧
    ApiRoastResume.systemPrompt (some "extra_burn") =
      "You are a savage resume reviewer with maximum intensity." ∧
    (∀ roastLevel : Option String, roastLevel ≠ some "spicy" →
      roastLevel ≠ some "extra_burn" →
      ApiRoastResume.systemPrompt roastLevel = "You are a professional resume reviewer.") := by
  refine ⟨?_, rfl, rfl, ?_, ?_, rfl, rfl, ?_⟩
  · intro req body provider hm hb hd hl
    cases provider with
    | rejected => simp [ApiRoastProject.handler, hm, hb, hd, hl]
    | resolved data =>
      cases h : ApiRoastProject.formattedResponse data <;>
        simp [ApiRoastProject.handler, hm, hb, hd, hl, h]
  · intro roastLevel h1 h2
    simp [ApiRoastProject.systemPrompt, h1, h2]
  · intro req file extractedText provider hm hf hext
    cases provider with
    | rejected =>
      rcases hext with he | he <;>
        simp [ApiRoastResume.handler, ApiRoastResume.extract, ApiRoastResume.roast, hm, hf, he]
    | resolved data =>
      rcases hext with he | he <;>
        cases h : ApiRoastResume.formattedResponse data <;>
        simp [ApiRoastResume.handler, ApiRoastResume.extract, ApiRoastResume.roast, hm, hf,
          he, h]
  · intro roastLevel h1 h2
    simp [ApiRoastResume.systemPrompt, h1, h2]

/-- Witness of C8 at the request of the spec's scenario: `roastLevel` `spicy`
selects the brutally honest instruction; an unknown level selects the mild
one. -/
theorem system_instruction_by_roast_level_witness :
    (ApiRoastProject.handler Sample.projectRequest
        ProviderOutcome.rejected).calls =
      [Call.provider "You are a brutally honest expert at roasting project ideas."
        (ApiRoastProject.userPrompt (some "A todo app") (some "http://x.com"))] ∧
    ApiRoastResume.systemPrompt (some "medium") = "You are a professional resume reviewer." :=
  ⟨system_instruction_by_roast_level.1 Sample.projectRequest Sample.projectBody
      ProviderOutcome.rejected rfl rfl rfl rfl,
    system_instruction_by_roast_level.2.2.2.2.2.2.2 (some "medium") (by decide) (by decide)⟩

/-! ## The stored upload of the Express resume route -/

/-- C9. In the Express resume route, for every request that carries a file the
stored upload at `req.file.path` is gone when the handler completes, whatever
the format, the extractor and the provider do (multer gives the stored copy a
non-empty path). With the stored upload in place at the start, the status is
400 for an unsupported format, 500 when the extractor
fails, 500 when the provider call rejects, and 200 when the provider content can
be read: the cleanup changes none of them. -/
theorem stored_upload_removed (req : ResumeRequest) (file : UploadedFile)
    (files : List String) (extractor : ExtractOutcome) (provider : ProviderOutcome)
    (hfile : req.file = some file) (hpath : file.path ≠ "") :
    file.path ∉ (Server.RoastResume.handler req files extractor provider).2 ∧
    (file.path ∈ files →
      (fileExtOf file.originalname ≠ "pdf" → fileExtOf file.originalname ≠ "docx" →
        (Server.RoastResume.handler req files extractor provider).1.status = 400) ∧
      ((fileExtOf file.originalname = "pdf" ∨ fileExtOf file.originalname = "docx") →
        (extractor = ExtractOutcome.failed →
          (Server.RoastResume.handler req files extractor provider).1.status = 500) ∧
        (∀ extractedText, extractor = ExtractOutcome.text extractedText →
          provider = ProviderOutcome.rejected →
          (Server.RoastResume.handler req files extractor provider).1.status = 500) ∧
        (∀ extractedText data content, extractor = ExtractOutcome.text extractedText →
          provider = ProviderOutcome.resolved data →
          readContent data = Except.ok content →
          (Server.RoastResume.handler req files extractor provider).1.status = 200))) := by
  constructor
  · simp only [Server.RoastResume.handler, hfile, unlinkSync, falsy, decide_eq_true_eq,
      if_neg hpath]
    split_ifs with h
    · simp [List.mem_filter]
    · exact h
  · intro hstored
    constructor
    · intro hpdf hdocx
      rw [Server.RoastResume.handler_unsupported req file files _ _ hfile hstored hpdf hdocx]
    · intro hext
      rw [Server.RoastResume.handler_supported req file files _ _ hfile hstored hext]
      refine ⟨?_, ?_, ?_⟩
      · intro he
        simp [Server.RoastResume.extract, he]
      · intro extractedText he hp
        simp [Server.RoastResume.extract, Server.RoastResume.roast, he, hp]
      · intro extractedText data content he hp hc
        subst he hp
        cases content with
        | none =>
          have hundefined : JSON.parse "undefined" = Except.error JsError.SyntaxError := rfl
          simp [Server.RoastResume.extract, Server.RoastResume.roast,
            Server.RoastResume.formattedResponse, hc, toText, hundefined]
        | some s =>
          cases hparse : JSON.parse s with
          | error e =>
            simp [Server.RoastResume.extract, Server.RoastResume.roast,
              Server.RoastResume.formattedResponse, hc, toText, hparse]
          | ok v =>
            cases v <;>
              simp [Server.RoastResume.extract, Server.RoastResume.roast,
                Server.RoastResume.formattedResponse, hc, toText, hparse, assignTitle]

/-- Witness of C9: for the upload `notes.txt` the stored file is gone and the
status is 400; for `cv.pdf` with a failing extractor the stored file is gone and
the status is 500. -/
theorem stored_upload_removed_witness :
    "uploads/1-notes.txt" ∉ (Server.RoastResume.handler Sample.notesRequest
      ["uploads/0-old.pdf", "uploads/1-notes.txt"] ExtractOutcome.failed
      ProviderOutcome.rejected).2 ∧
    (Server.RoastResume.handler Sample.notesRequest
      ["uploads/0-old.pdf", "uploads/1-notes.txt"] ExtractOutcome.failed
      ProviderOutcome.rejected).1.status = 400 ∧
    "uploads/1-cv.pdf" ∉ (Server.RoastResume.handler Sample.cvRequest
      ["uploads/1-cv.pdf"] ExtractOutcome.failed ProviderOutcome.rejected).2 ∧
    (Server.RoastResume.handler Sample.cvRequest
      ["uploads/1-cv.pdf"] ExtractOutcome.failed ProviderOutcome.rejected).1.status = 500 :=
  ⟨(stored_upload_removed Sample.notesRequest
      Sample.notesTxt ["uploads/0-old.pdf", "uploads/1-notes.txt"]
      ExtractOutcome.failed ProviderOutcome.rejected rfl (by decide)).1,
    ((stored_upload_removed Sample.notesRequest
        Sample.notesTxt ["uploads/0-old.pdf", "uploads/1-notes.txt"]
      ExtractOutcome.failed ProviderOutcome.rejected rfl (by decide)).2 (by decide)).1
      (by decide) (by decide),
    (stored_upload_removed Sample.cvRequest
        Sample.cvPdf ["uploads/1-cv.pdf"]
      ExtractOutcome.failed ProviderOutcome.rejected rfl (by decide)).1,
    (((stored_upload_removed Sample.cvRequest
        Sample.cvPdf ["uploads/1-cv.pdf"]
      ExtractOutcome.failed ProviderOutcome.rejected rfl (by decide)).2 (by decide)).2
      (Or.inl rfl)).1 rfl⟩

/-! ## The two copies of each pipeline -/

/-- C10. The two copies of each pipeline agree. For every submit-project body,
present or absent, and provider outcome, the Express route and the serverless handler on the POST
request with that body give the same result: status, body, and the one provider
call with its system and user instruction. For every POST submit-resume request
whose stored upload is in place, every extractor outcome and provider outcome,
the answer of the Express route is the result of the serverless handler. -/
theorem handler_copies_agree :
    (∀ (reqBody : Option ProjectBody) (provider : ProviderOutcome),
      Server.RoastProject.handler reqBody provider =
        ApiRoastProject.handler (ProjectRequest.mk "POST" reqBody) provider) ∧
    (∀ (req : ResumeRequest) (files : List String) (extractor : ExtractOutcome)
      (provider : ProviderOutcome), req.method = "POST" →
      (∀ file, req.file = some file → file.path ∈ files) →
      (Server.RoastResume.handler req files extractor provider).1 =
        ApiRoastResume.handler req extractor provider) := by
  constructor
  · intro reqBody provider
    have hnorm : Server.RoastProject.formattedResponse = ApiRoastProject.formattedResponse :=
      rfl
    have hsys : Server.RoastProject.systemPrompt = ApiRoastProject.systemPrompt := rfl
    have huser : Server.RoastProject.userPrompt = ApiRoastProject.userPrompt := rfl
    cases reqBody <;>
      simp [Server.RoastProject.handler, ApiRoastProject.handler, hnorm, hsys, huser]
  · intro req files extractor provider hm hstored
    have hextract : Server.RoastResume.extract = ApiRoastResume.extract := rfl
    cases hf : req.file with
    | none => simp [Server.RoastResume.handler, ApiRoastResume.handler, hm, hf]
    | some file =>
      have hin := hstored file hf
      by_cases hpdf : fileExtOf file.originalname = "pdf"
      · rw [Server.RoastResume.handler_supported req file files _ _ hf hin (Or.inl hpdf)]
        simp [ApiRoastResume.handler, hm, hf, hpdf, hextract]
      · by_cases hdocx : fileExtOf file.originalname = "docx"
        · rw [Server.RoastResume.handler_supported req file files _ _ hf hin (Or.inr hdocx)]
          simp [ApiRoastResume.handler, hm, hf, hdocx, hextract]
        · rw [Server.RoastResume.handler_unsupported req file files _ _ hf hin hpdf hdocx]
          simp [ApiRoastResume.handler, hm, hf, hpdf, hdocx]

/-- Witness of C10 at the project request of the spec's scenario and at the
upload `cv.pdf`. -/
theorem handler_copies_agree_witness :
    Server.RoastProject.handler Sample.projectRequest.body
      (ProviderOutcome.resolved (Sample.envelope (some Sample.verdict)))
          =
      ApiRoastProject.handler Sample.projectRequest
          (ProviderOutcome.resolved (Sample.envelope (some Sample.verdict)))
          ∧
    (Server.RoastResume.handler Sample.cvRequest
        ["uploads/1-cv.pdf"]
      (ExtractOutcome.text "Ten years of Excel")
      (ProviderOutcome.resolved (Sample.envelope (some Sample.verdict)))).1 =
      ApiRoastResume.handler Sample.cvRequest
          (ExtractOutcome.text "Ten years of Excel")
        (ProviderOutcome.resolved (Sample.envelope (some Sample.verdict)))
            ∧
    (ApiRoastResume.handler Sample.cvRequest
        (ExtractOutcome.text "Ten years of Excel")
        (ProviderOutcome.resolved (Sample.envelope (some Sample.verdict)))).status = 200 :=
  ⟨handler_copies_agree.1 Sample.projectRequest.body
      (ProviderOutcome.resolved (Sample.envelope (some Sample.verdict))),
    handler_copies_agree.2 Sample.cvRequest
        ["uploads/1-cv.pdf"]
      (ExtractOutcome.text "Ten years of Excel")
      (ProviderOutcome.resolved (Sample.envelope (some Sample.verdict)))
          rfl
      (fun file h => by cases h; decide),
    rfl⟩

end Roast
